import Mathlib

/-!
Shallow embedding of the opportunity-detection / execution engine of the
crypto-arbitrage-bot repository.

Sources embedded:
- src/server/storage.ts            (MemStorage: opportunity CRUD)
- src/server/services/arbitrage.ts (five strategy detectors, risk config,
                                    circuit-breaker state)
- src/server/services/execution.ts (execution coordinator, position sizing)
- src/client/src/lib/exchanges.ts  (static pair→risk table)

Modelling conventions:
- JavaScript numbers are modelled as ℚ (all arithmetic in the embedded code
  is exact decimal arithmetic on human-scale values).
- Numeric fields that the TypeScript code stores as strings and re-parses
  with parseFloat are modelled directly as ℚ.
- JavaScript `Math.random()` calls are modelled as oracle parameters
  (functions supplying one rational per call site); theorems that depend on
  the range constrain the oracle to [0,1).
- The random array shuffle `[...xs].sort(() => Math.random() - 0.5)` is
  modelled as an oracle function of type List _ → List _.
- Venue-adapter calls are modelled through an environment of response
  functions; a JavaScript exception thrown by an adapter call is an
  `Except.error msg`, a null/undefined return is `Except.ok none`.
- Wall-clock differences (Date.now() - startTime) are passed in as an
  `elapsed` parameter.
- String.split / startsWith / toLowerCase are re-implemented on character
  lists (`strSplitOn`, `strStartsWith`, `strToLower`) so that concrete
  evaluations reduce inside the kernel; semantics match the JS builtins for
  the non-empty separators used by the code.
-/

namespace ArbBot

/-! ### String helpers (kernel-reducible models of the JS string builtins) -/

/-- Boolean test that the first character list is a prefix of the second. -/
def startsWithSeq : List Char → List Char → Bool
  | [], _ => true
  | _ :: _, [] => false
  | a :: as, b :: bs => a = b && startsWithSeq as bs

/-- Fuel-driven worker for `strSplitOn`; fuel ≥ input length guarantees the
input is consumed before the fuel. -/
def splitSeqAux (sep : List Char) : Nat → List Char → List Char → List (List Char)
  | 0, _, acc => [acc.reverse]
  | _ + 1, [], acc => [acc.reverse]
  | fuel + 1, c :: rest, acc =>
    if startsWithSeq sep (c :: rest) then
      acc.reverse :: splitSeqAux sep fuel (List.drop sep.length (c :: rest)) []
    else
      splitSeqAux sep fuel rest (c :: acc)

/-- Model of JavaScript `s.split(sep)` for non-empty `sep` (same behaviour
as Lean `String.splitOn`, re-implemented to be kernel-reducible). -/
def strSplitOn (s sep : String) : List String :=
  if sep.data.isEmpty then [s]
  else (splitSeqAux sep.data (s.data.length + 1) s.data []).map String.mk

/-- Model of JavaScript `s.startsWith(p)`. -/
def strStartsWith (s p : String) : Bool :=
  startsWithSeq p.data s.data

/-- Model of JavaScript `s.toLowerCase()` (ASCII, which covers every string
the code compares). -/
def strToLower (s : String) : String :=
  String.mk (s.data.map Char.toLower)

/-! ### Stable sort by a rational key

JavaScript `array.sort((a, b) => key a - key b)` is a stable ascending sort
by `key`; `(a, b) => key b - key a` is the descending variant, equal to the
ascending sort by the negated key.  Insertion sort below is stable in the
same sense (earlier elements come first among equal keys). -/

/-- Insert into a list sorted ascending by `key`, before the first element
with a key that is not smaller. -/
def insertSortedBy (key : α → ℚ) (x : α) : List α → List α
  | [] => [x]
  | y :: ys => if key x ≤ key y then x :: y :: ys else y :: insertSortedBy key x ys

/-- Stable ascending sort by a rational key. -/
def sortByKey (key : α → ℚ) : List α → List α
  | [] => []
  | x :: xs => insertSortedBy key x (sortByKey key xs)

theorem mem_insertSortedBy (key : α → ℚ) (x a : α) (l : List α) :
    a ∈ insertSortedBy key x l ↔ a = x ∨ a ∈ l := by
  induction l with
  | nil => simp [insertSortedBy]
  | cons y ys ih =>
    simp only [insertSortedBy]
    split
    · simp
    · simp only [List.mem_cons, ih]
      tauto

theorem mem_sortByKey (key : α → ℚ) (a : α) (l : List α) :
    a ∈ sortByKey key l ↔ a ∈ l := by
  induction l with
  | nil => simp [sortByKey]
  | cons x xs ih => simp [sortByKey, mem_insertSortedBy, ih]

/-! ### Data model (src/shared/schema.ts) -/

/-- An opportunity as produced by the detectors, before the store assigns an
id (`InsertOpportunity` in src/shared/schema.ts).  Optional DEX-specific
fields default as in the schema. -/
structure InsertOpportunity where
  assetPair : String
  buyExchange : String
  sellExchange : String
  buyPrice : ℚ
  sellPrice : ℚ
  profitPercentage : ℚ
  volume : ℚ
  estimatedProfit : ℚ
  risk : String
  strategy : String
  route : String
  isActive : Bool
  buyExchangeType : String := "cex"
  sellExchangeType : String := "cex"
  buyNetwork : Option String := none
  sellNetwork : Option String := none
  estimatedGasCost : Option ℚ := none
  estimatedCompletionTime : Option ℚ := none
  crossChainBridge : Option String := none
deriving DecidableEq, Repr

/-- A stored opportunity: the insert payload plus the assigned id
(the creation timestamp is not modelled; no embedded code reads it). -/
structure Opportunity extends InsertOpportunity where
  id : Nat
deriving DecidableEq, Repr

/-! ### Opportunity store (src/server/storage.ts, MemStorage)

The `Map<number, Opportunity>` is modelled as an association list with
JS-Map semantics: lookup finds the first binding, set replaces the first
binding in place (or appends a fresh one). -/

/-- The in-memory opportunity map. -/
abbrev Store := List (Nat × Opportunity)

/-- JS `Map.get`. -/
def mapGet (store : Store) (id : Nat) : Option Opportunity :=
  match store with
  | [] => none
  | (k, v) :: rest => if k = id then some v else mapGet rest id

/-- JS `Map.set`: replace the binding in place, or append. -/
def mapSet (store : Store) (id : Nat) (v : Opportunity) : Store :=
  match store with
  | [] => [(id, v)]
  | (k, w) :: rest => if k = id then (id, v) :: rest else (k, w) :: mapSet rest id v

theorem mapGet_mapSet_self (store : Store) (id : Nat) (v : Opportunity) :
    mapGet (mapSet store id v) id = some v := by
  induction store with
  | nil => simp [mapGet, mapSet]
  | cons p rest ih =>
    obtain ⟨k, w⟩ := p
    by_cases h : k = id <;> simp [mapGet, mapSet, h, ih]

theorem mapSet_self_of_mapGet (store : Store) (id : Nat) (v : Opportunity)
    (h : mapGet store id = some v) : mapSet store id v = store := by
  induction store with
  | nil => simp [mapGet] at h
  | cons p rest ih =>
    obtain ⟨k, w⟩ := p
    by_cases hk : k = id
    · subst hk
      simp [mapGet] at h
      simp [mapSet, h]
    · simp [mapGet, hk] at h
      simp [mapSet, hk, ih h]

/-- storage.getOpportunityById. -/
def getOpportunityById (store : Store) (id : Nat) : Option Opportunity :=
  mapGet store id

/-- storage.deactivateOpportunity: throws when the id is unknown, otherwise
stores the record with `isActive := false` and returns it. -/
def deactivateOpportunity (store : Store) (id : Nat) :
    Except String (Opportunity × Store) :=
  match mapGet store id with
  | none => .error ("Opportunity with ID " ++ toString id ++ " not found")
  | some opp =>
    let updated := { opp with isActive := false }
    .ok (updated, mapSet store id updated)

/-- storage.getOpportunities: keep only active records, optionally filter by
minimum profit and by strategy (case-insensitive), sort descending by
profit percentage (the JS comparator `b.profitPercentage -
a.profitPercentage`, i.e. ascending by the negated key). -/
def getOpportunities (store : Store) (minProfit : ℚ) (strategy : String) :
    List Opportunity :=
  let opportunities := (store.map Prod.snd).filter (fun opp => opp.isActive)
  let opportunities :=
    if 0 < minProfit then
      opportunities.filter (fun opp => minProfit ≤ opp.profitPercentage)
    else opportunities
  let opportunities :=
    if strategy ≠ "all" then
      opportunities.filter (fun opp => strToLower opp.strategy = strToLower strategy)
    else opportunities
  sortByKey (fun opp => -opp.profitPercentage) opportunities

/-! ### Risk configuration and static tables
(src/server/services/arbitrage.ts RISK_CONFIG and
src/client/src/lib/exchanges.ts). -/

/-- RISK_CONFIG.MAX_POSITION_SIZE (arbitrage.ts; the same value is
MAX_POSITION_SIZE in execution.ts). -/
def MAX_POSITION_SIZE : ℚ := 10000

/-- MIN_POSITION_SIZE (execution.ts). -/
def MIN_POSITION_SIZE : ℚ := 100

/-- MAX_SLIPPAGE (execution.ts). -/
def MAX_SLIPPAGE : ℚ := 1.0

/-- RISK_CONFIG.MAX_DAILY_LOSS (arbitrage.ts). -/
def MAX_DAILY_LOSS : ℚ := 5000

/-- RISK_CONFIG.CIRCUIT_BREAKER_THRESHOLD (arbitrage.ts). -/
def CIRCUIT_BREAKER_THRESHOLD : Nat := 3

/-- Static pair→risk table PAIR_RISK_LEVELS (src/client/src/lib/exchanges.ts). -/
def PAIR_RISK_LEVELS : List (String × String) :=
  [("BTC/USDT", "low"), ("ETH/USDT", "low"), ("SOL/USDT", "medium"),
   ("ADA/USDT", "medium"), ("LINK/USDT", "medium"), ("DOT/USDT", "medium"),
   ("BNB/USDT", "low"), ("XRP/USDT", "medium"), ("DOGE/USDT", "high"),
   ("AVAX/USDT", "medium"),
   ("ETH/USDC", "low"), ("WBTC/ETH", "medium"), ("ETH/DAI", "low"),
   ("LINK/ETH", "medium"), ("UNI/ETH", "medium"), ("SUSHI/ETH", "high"),
   ("AAVE/ETH", "medium"), ("COMP/ETH", "high"), ("CAKE/BNB", "medium"),
   ("MATIC/ETH", "medium")]

/-- Table lookup with the JS `|| RiskLevelEnum.MEDIUM` fallback (every risk
string in the table is truthy, so `||` is exactly the default-on-missing). -/
def pairRiskBase (pair : String) : String :=
  (PAIR_RISK_LEVELS.lookup pair).getD "medium"

/-- Risk escalation in detectSimpleArbitrage (arbitrage.ts lines 227-235):
an if / else-if chain, so a low-risk pair with profit above 3 takes the
first branch and never reaches the `> 5` escalation. -/
def escalateRisk (base : String) (profitPercentage : ℚ) : String :=
  if profitPercentage > 3 ∧ base = "low" then "medium"
  else if profitPercentage > 5 then "high"
  else base

/-! ### Detectors (src/server/services/arbitrage.ts) -/

/-- One entry of the ticker list returned by getTickersForPair. -/
structure Ticker where
  exchange : String
  bid : ℚ
  ask : ℚ
deriving DecidableEq, Repr

/-- detectSimpleArbitrage (arbitrage.ts lines 197-259) for one pair.
`randVolume` models the `Math.random()` in `5000 + Math.random() * 5000`. -/
def detectSimpleArbitrage (pair : String) (tickers : List Ticker)
    (randVolume : ℚ) : Option InsertOpportunity :=
  if tickers.length < 2 then none
  else
    let buyOpps := sortByKey (fun t => t.ask) tickers
    let sellOpps := sortByKey (fun t => -t.bid) tickers
    match buyOpps, sellOpps with
    | bestBuy :: _, bestSell :: _ =>
      if bestBuy.exchange = bestSell.exchange then none
      else
        let buyPrice := bestBuy.ask
        let sellPrice := bestSell.bid
        let profitPercentage := (sellPrice - buyPrice) / buyPrice * 100
        if profitPercentage ≤ 0 then none
        else
          let risk := escalateRisk (pairRiskBase pair) profitPercentage
          let volume := 5000 + randVolume * 5000
          some
            { assetPair := pair
              buyExchange := bestBuy.exchange
              sellExchange := bestSell.exchange
              buyPrice := buyPrice
              sellPrice := sellPrice
              profitPercentage := profitPercentage
              volume := volume
              estimatedProfit := volume * profitPercentage / 100
              risk := risk
              strategy := "simple"
              route := bestBuy.exchange ++ " → " ++ bestSell.exchange
              isActive := true }
    | _, _ => none

/-- Body of the loop in detectTriangularArbitrage (arbitrage.ts lines
285-312) for one triangle entry; the three rationals model the three
`Math.random()` calls (base price, profit variance, volume). -/
def mkTriangularOpportunity (pair steps : String) (profit : ℚ) (risk : String)
    (randBase randVar randVol : ℚ) : InsertOpportunity :=
  let basePrice := 10 + randBase * 90
  let profitPercentage := profit + (randVar * 0.5 - 0.25)
  let volume := 5000 + randVol * 5000
  { assetPair := pair
    buyExchange := "Binance"
    sellExchange := "Binance"
    buyPrice := basePrice
    sellPrice := basePrice * (1 + profitPercentage / 100)
    profitPercentage := profitPercentage
    volume := volume
    estimatedProfit := volume * profitPercentage / 100
    risk := risk
    strategy := "triangular"
    route := steps
    isActive := true }

/-- detectTriangularArbitrage (arbitrage.ts lines 262-313): the loop over
the three hard-coded triangles, unrolled.  `rand` is the Math.random()
oracle (three draws per triangle, in program order). -/
def detectTriangularArbitrage (rand : Nat → ℚ) : List InsertOpportunity :=
  [ mkTriangularOpportunity "SOL/USDT" "SOL/USDT → SOL/BTC → BTC/USDT"
      1.87 "medium" (rand 0) (rand 1) (rand 2),
    mkTriangularOpportunity "ADA/USDT" "ADA/USDT → ADA/ETH → ETH/USDT"
      1.15 "high" (rand 3) (rand 4) (rand 5),
    mkTriangularOpportunity "LINK/USDT" "LINK/USDT → LINK/BTC → BTC/USDT"
      0.94 "medium" (rand 6) (rand 7) (rand 8) ]

/-- One liquidity-pool record (the fields read by detectCrossDexArbitrage). -/
structure LiquidityPool where
  exchange : String
  network : String
  pair : String
  token0Amount : ℚ
  token1Amount : ℚ
  liquidityUSD : ℚ
  fee : ℚ
deriving DecidableEq, Repr

/-- The per-pool price summary built inside detectCrossDexArbitrage. -/
structure PoolPrice where
  exchange : String
  network : String
  price : ℚ
  liquidityUSD : ℚ
  fee : ℚ
deriving DecidableEq, Repr

/-- One gas-price record (storage.getLatestGasPrices result). -/
structure GasPrice where
  fast : ℚ
  average : ℚ
  slow : ℚ
deriving DecidableEq, Repr

/-- One cross-chain bridge record (the field read by the detector). -/
structure BridgeRecord where
  name : String
deriving DecidableEq, Repr

/-- Reference-data reads the cross-DEX detector performs against storage. -/
structure RefData where
  getLatestGasPrices : String → Option GasPrice
  getCrossChainBridges : String → String → List BridgeRecord

/-- NETWORK_TRANSFER_TIMES (src/client/src/lib/exchanges.ts) is a flat
token-symbol→minutes map, while the detector indexes it as
`NETWORK_TRANSFER_TIMES[buyNetwork]?.[sellNetwork]`: network names are not
keys of the table, and even on a key hit the second index hits a number, so
the nested lookup is always undefined and the `|| 10` fallback applies. -/
def networkTransferTime (_buyNetwork _sellNetwork : String) : Option ℚ :=
  none

/-- The body of the inner comparison loop of detectCrossDexArbitrage
(arbitrage.ts lines 367-469): one buy-pool / sell-pool candidate. -/
def crossDexCandidate (ref : RefData) (pair : String)
    (buyDex sellDex : PoolPrice) : Option InsertOpportunity :=
  if buyDex.exchange = sellDex.exchange ∧ buyDex.network = sellDex.network then
    none
  else
    let totalFees := buyDex.fee + sellDex.fee
    let priceDiff := sellDex.price - buyDex.price
    let profitPercentage := priceDiff / buyDex.price * 100 - totalFees
    if profitPercentage ≤ 0 then none
    else
      let isCrossNetwork := buyDex.network ≠ sellDex.network
      let risk := if isCrossNetwork then "high" else "medium"
      let estimatedGasCost :=
        if isCrossNetwork then
          match ref.getLatestGasPrices buyDex.network,
                ref.getLatestGasPrices sellDex.network with
          | some buyGas, some sellGas => buyGas.fast + sellGas.fast
          | _, _ => 0
        else
          match ref.getLatestGasPrices buyDex.network with
          | some gas => gas.fast
          | none => 0
      let estimatedCompletionTime :=
        if isCrossNetwork then
          (networkTransferTime buyDex.network sellDex.network).getD 10
        else 1
      let crossChainBridge :=
        if isCrossNetwork then
          match ref.getCrossChainBridges buyDex.network sellDex.network with
          | b :: _ => b.name
          | [] => ""
        else ""
      let maxPositionSize :=
        min (min (buyDex.liquidityUSD * 0.05) (sellDex.liquidityUSD * 0.05))
          MAX_POSITION_SIZE
      some
        { assetPair := pair
          buyExchange := buyDex.exchange
          sellExchange := sellDex.exchange
          buyPrice := buyDex.price
          sellPrice := sellDex.price
          profitPercentage := profitPercentage
          volume := maxPositionSize
          estimatedProfit := maxPositionSize * profitPercentage / 100
          risk := risk
          strategy := "cross-dex"
          route := buyDex.exchange ++ " (" ++ buyDex.network ++ ") → "
            ++ (if isCrossNetwork then crossChainBridge ++ " → " else "")
            ++ sellDex.exchange ++ " (" ++ sellDex.network ++ ")"
          isActive := true
          buyExchangeType := "dex"
          sellExchangeType := "dex"
          buyNetwork := some buyDex.network
          sellNetwork := some sellDex.network
          estimatedGasCost := some estimatedGasCost
          estimatedCompletionTime := some estimatedCompletionTime
          crossChainBridge := if isCrossNetwork then some crossChainBridge else none }

/-- detectCrossDexArbitrage for one pair group (arbitrage.ts lines 346-470):
computes implied prices, sorts ascending, compares every pool except the
most expensive (`i < length - 1`) against the most expensive pool. -/
def detectCrossDexForPair (ref : RefData) (pair : String)
    (pools : List LiquidityPool) : List InsertOpportunity :=
  if pools.length < 2 then []
  else
    let pricesWithExchanges := pools.map fun pool =>
      ({ exchange := pool.exchange
         network := pool.network
         price := pool.token0Amount / pool.token1Amount
         liquidityUSD := pool.liquidityUSD
         fee := pool.fee } : PoolPrice)
    let sortedPrices := sortByKey (fun p => p.price) pricesWithExchanges
    match sortedPrices.getLast? with
    | none => []
    | some sellDex =>
      sortedPrices.dropLast.filterMap fun buyDex =>
        crossDexCandidate ref pair buyDex sellDex

/-- One flash-loan provider record (the fields read by the detector). -/
structure FlashLoanProviderRec where
  name : String
  network : String
  fee : ℚ
  maxLoanAmount : ℚ
  supportedTokens : List String
deriving DecidableEq, Repr

/-- One exchange record (the fields the detectors read). -/
structure ExchangeRec where
  name : String
  network : Option String := none
  type : String := "cex"
  isActive : Bool := true
deriving DecidableEq, Repr

/-- Inner candidate of detectFlashLoanArbitrage (arbitrage.ts lines
514-569) for one provider and one supported token.  `shuffled` is the
oracle result of the random shuffle of the provider-network DEX list;
`rand n` models the n-th `Math.random()` of the iteration (0 base profit,
1 buy price, 2 sell price, 3 gas). -/
def flashLoanCandidate (provider : FlashLoanProviderRec) (token : String)
    (shuffled : List ExchangeRec) (rand : Nat → ℚ) : Option InsertOpportunity :=
  match shuffled with
  | [] => none
  | dex1 :: rest =>
    let dex2 := rest.headD dex1
    let providerFee := provider.fee
    let baseProfit := 0.5 + rand 0 * 2
    let profitPercentage := baseProfit - providerFee
    if profitPercentage ≤ 0 then none
    else
      let loanSize := min (provider.maxLoanAmount * 0.5) 1000000
      let estimatedProfit := loanSize * (profitPercentage / 100)
      some
        { assetPair := token ++ "/USD"
          buyExchange := dex1.name
          sellExchange := dex2.name
          buyPrice := 1000 + rand 1 * 500
          sellPrice := 1000 + rand 2 * 500
          profitPercentage := profitPercentage
          volume := loanSize
          estimatedProfit := estimatedProfit
          risk := "high"
          strategy := "flash-loan"
          route := provider.name ++ " → " ++ dex1.name ++ " → " ++ dex2.name
            ++ " → Repay " ++ provider.name
          isActive := true
          buyExchangeType := "dex"
          sellExchangeType := "dex"
          buyNetwork := some provider.network
          sellNetwork := some provider.network
          estimatedGasCost := some (50 + rand 3 * 100)
          estimatedCompletionTime := some 1 }

/-- detectFlashLoanArbitrage (arbitrage.ts lines 479-576).  `shuffle p t`
is the oracle for the random shuffle in the (provider p, token t)
iteration, and `rand p t` the Math.random() oracle for that iteration. -/
def detectFlashLoanArbitrage (providers : List FlashLoanProviderRec)
    (exchanges : List ExchangeRec)
    (shuffle : String → String → List ExchangeRec → List ExchangeRec)
    (rand : String → String → Nat → ℚ) : List InsertOpportunity :=
  let dexExchanges := exchanges.filter fun e => e.isActive && e.type = "dex"
  if dexExchanges.length < 2 then []
  else
    providers.flatMap fun provider =>
      let networkDexes := dexExchanges.filter fun e =>
        e.network = some provider.network
      if networkDexes.length < 2 then []
      else
        provider.supportedTokens.filterMap fun token =>
          flashLoanCandidate provider token
            (shuffle provider.name token networkDexes)
            (rand provider.name token)

/-- COMMON_PAIRS (src/client/src/lib/exchanges.ts), the CEX list that the
statistical detector iterates. -/
def COMMON_PAIRS : List String :=
  ["BTC/USDT", "ETH/USDT", "SOL/USDT", "ADA/USDT", "LINK/USDT",
   "DOT/USDT", "BNB/USDT", "XRP/USDT", "DOGE/USDT", "AVAX/USDT"]

/-- Inner candidate of detectStatisticalArbitrage (arbitrage.ts lines
582-654) for one pair.  `shuffled` is the oracle shuffle of the active
exchanges; `rand n` models the n-th Math.random() of the iteration
(0 creation gate, 1 z-score, 2 base price, 3 position size). -/
def statisticalCandidate (pair : String) (shuffled : List ExchangeRec)
    (rand : Nat → ℚ) : Option InsertOpportunity :=
  let shouldCreateOpportunity := rand 0 > 0.7
  if ¬shouldCreateOpportunity then none
  else
    match shuffled with
    | exchange1 :: exchange2 :: _ =>
      let zScore := -2 + rand 1 * 4
      let profitPotential := |zScore| * 0.5
      if profitPotential < 0.3 then none
      else
        let basePrice := 100 + rand 2 * 1000
        let priceDifference := basePrice * (profitPotential / 100)
        let targetPrice :=
          if zScore > 0 then basePrice - priceDifference
          else basePrice + priceDifference
        let isLong := zScore < 0
        let positionSize := 1000 + rand 3 * 9000
        let expectedProfit := positionSize * (profitPotential / 100)
        let risk := if |zScore| < 1 then "high" else "medium"
        some
          { assetPair := pair
            buyExchange := if isLong then exchange1.name else exchange2.name
            sellExchange := if isLong then exchange2.name else exchange1.name
            buyPrice := if isLong then basePrice else targetPrice
            sellPrice := if isLong then targetPrice else basePrice
            profitPercentage := profitPotential
            volume := positionSize
            estimatedProfit := expectedProfit
            risk := risk
            strategy := "statistical"
            route := (if isLong then "Long" else "Short") ++ " " ++ pair
              ++ " | Z-Score: " ++ toString zScore
            isActive := true
            buyExchangeType := exchange1.type
            sellExchangeType := exchange2.type }
    | _ => none

/-- detectStatisticalArbitrage (arbitrage.ts lines 579-660).  `shuffle p`
is the oracle for the random shuffle of the active exchanges in the
iteration for pair p, and `rand p` its Math.random() oracle. -/
def detectStatisticalArbitrage (exchanges : List ExchangeRec)
    (shuffle : String → List ExchangeRec → List ExchangeRec)
    (rand : String → Nat → ℚ) : List InsertOpportunity :=
  COMMON_PAIRS.filterMap fun pair =>
    let activeExchanges := exchanges.filter fun e => e.isActive
    if activeExchanges.length < 2 then none
    else statisticalCandidate pair (shuffle pair activeExchanges) (rand pair)

/-! ### Execution coordinator (src/server/services/execution.ts)

Venue-adapter calls go through an `AdapterEnv` of response functions.
`Except.error m` models a thrown JS exception with message m (caught by the
try/catch of the enclosing function); `Except.ok none` models a null /
undefined return.  Each executor also returns the ordered list of adapter
calls it issued, so that "no adapter calls" is expressible. -/

/-- The token-address placeholder hard-coded throughout execution.ts. -/
def tokenPlaceholder : String := "0xTokenAddressPlaceholder"

/-- Parameters of bridgeConnector.bridgeTransfer. -/
structure BridgeTransferParams where
  sourceNetwork : String
  destinationNetwork : String
  tokenSymbol : String
  amount : ℚ
  recipientAddress : String
deriving DecidableEq, Repr

/-- Result object of bridgeConnector.bridgeTransfer. -/
structure BridgeTransferResult where
  success : Bool
  transactionHash : Option String := none
  estimatedTime : Option ℚ := none
  error : Option String := none
deriving DecidableEq, Repr

/-- A flash-loan provider as returned by
flashLoanConnector.getFlashLoanProvidersForNetwork. -/
structure FlashProviderInfo where
  name : String
  network : String
deriving DecidableEq, Repr

/-- Parameters of flashLoanConnector.executeFlashLoan. -/
structure FlashLoanRequest where
  provider : String
  tokens : List String
  amounts : List ℚ
  data : String
deriving DecidableEq, Repr

/-- Result object of flashLoanConnector.executeFlashLoan. -/
structure FlashLoanResult where
  success : Bool
  transactionHash : Option String := none
  error : Option String := none
deriving DecidableEq, Repr

/-- Responses of the venue adapters (connectors/cex.ts, connectors/dex.ts,
connectors/bridges.ts, connectors/flashloans.ts) as seen by execution.ts. -/
structure AdapterEnv where
  placeMarketBuyOrder : String → String → ℚ → Except String (Option String)
  placeMarketSellOrder : String → String → ℚ → Except String (Option String)
  swapTokens : String → String → String → ℚ → ℚ → Except String (Option String)
  bridgeTransfer : String → BridgeTransferParams → Except String BridgeTransferResult
  getFlashLoanProvidersForNetwork : String → List FlashProviderInfo
  getFlashLoanTokenAddress : String → String → Option String
  executeFlashLoan : FlashLoanRequest → Except String FlashLoanResult
  getBalance : String → String → Except String (Option ℚ)
  getTokenBalance : String → String → Except String (Option ℚ)

/-- One issued venue-adapter call (for stating "no adapter calls"). -/
inductive AdapterCall where
  | cexBuy (exchange pair : String) (amount : ℚ)
  | cexSell (exchange pair : String) (amount : ℚ)
  | dexSwap (exchange tokenIn tokenOut : String) (amountIn : ℚ)
  | bridge (bridgeName : String) (params : BridgeTransferParams)
  | flashLoan (request : FlashLoanRequest)
  | cexBalance (exchange currency : String)
  | dexBalance (network tokenAddress : String)
deriving DecidableEq, Repr

/-- ExecutionResult (execution.ts lines 16-24); absent optional fields are
the defaults. -/
structure ExecutionResult where
  success : Bool
  opportunityId : Nat
  strategy : String
  transactionHashes : List String := []
  profit : Option ℚ := none
  error : Option String := none
  completionTime : Option Nat := none
deriving DecidableEq, Repr

/-- JS `x || d` for an optional number: null/undefined and 0 are falsy. -/
def orFalsyNum (x : Option ℚ) (d : ℚ) : ℚ :=
  match x with
  | none => d
  | some v => if v = 0 then d else v

/-- JS `s || d` for an optional string: null/undefined and "" are falsy. -/
def orFalsyStr (s : Option String) (d : String) : String :=
  match s with
  | none => d
  | some v => if v = "" then d else v

/-- getAvailableBalance (execution.ts lines 760-783): CEX path is
`getBalance(...) || MAX_POSITION_SIZE` (so a successful zero balance also
falls back to the maximum), DEX path is `balance ? parseFloat(balance) :
MAX_POSITION_SIZE`, and any thrown error yields MAX_POSITION_SIZE / 2. -/
def getAvailableBalance (env : AdapterEnv) (opp : Opportunity) :
    ℚ × List AdapterCall :=
  let quote := ((strSplitOn opp.assetPair "/").getD 1 "")
  if opp.buyExchangeType = "cex" then
    match env.getBalance opp.buyExchange quote with
    | .error _ => (MAX_POSITION_SIZE / 2, [.cexBalance opp.buyExchange quote])
    | .ok balance =>
      (orFalsyNum balance MAX_POSITION_SIZE, [.cexBalance opp.buyExchange quote])
  else
    let network := orFalsyStr opp.buyNetwork "ethereum"
    match env.getTokenBalance network tokenPlaceholder with
    | .error _ => (MAX_POSITION_SIZE / 2, [.dexBalance network tokenPlaceholder])
    | .ok none => (MAX_POSITION_SIZE, [.dexBalance network tokenPlaceholder])
    | .ok (some balance) => (balance, [.dexBalance network tokenPlaceholder])

/-- The riskFactors table of calculatePositionSize with its `|| 0.5`
fallback (every listed factor is truthy). -/
def riskFactorFor (strategy : String) : ℚ :=
  if strategy = "simple" then 1.0
  else if strategy = "triangular" then 0.8
  else if strategy = "cross-dex" then 0.7
  else if strategy = "flash-loan" then 0.5
  else if strategy = "statistical" then 0.6
  else 0.5

/-- calculatePositionSize (execution.ts lines 721-755): start from the
opportunity volume, cap at MAX_POSITION_SIZE, raise to MIN_POSITION_SIZE,
cap at the available balance, scale by the strategy risk factor. -/
def calculatePositionSize (env : AdapterEnv) (opp : Opportunity) :
    ℚ × List AdapterCall :=
  let positionSize := opp.volume
  let positionSize := min positionSize MAX_POSITION_SIZE
  let positionSize :=
    if positionSize < MIN_POSITION_SIZE then MIN_POSITION_SIZE else positionSize
  let availableAndCalls := getAvailableBalance env opp
  let availableBalance := availableAndCalls.1
  let positionSize :=
    if availableBalance < positionSize then availableBalance else positionSize
  (positionSize * riskFactorFor opp.strategy, availableAndCalls.2)

/-- The failure result each executor's catch block builds from a thrown
exception (success:false, only the error message; no hashes, no profit). -/
def catchResult (opp : Opportunity) (message : String) : ExecutionResult :=
  { success := false, opportunityId := opp.id, strategy := opp.strategy
    error := some message }

/-- executeSimpleArbitrage (execution.ts lines 141-256). -/
def executeSimpleArbitrage (env : AdapterEnv) (opp : Opportunity)
    (positionSize : ℚ) : ExecutionResult × List AdapterCall :=
  let assetAmount := positionSize / opp.buyPrice
  let buyCall : AdapterCall :=
    if opp.buyExchangeType = "cex" then
      .cexBuy opp.buyExchange opp.assetPair assetAmount
    else .dexSwap opp.buyExchange tokenPlaceholder tokenPlaceholder positionSize
  let buyRes :=
    if opp.buyExchangeType = "cex" then
      env.placeMarketBuyOrder opp.buyExchange opp.assetPair assetAmount
    else
      env.swapTokens opp.buyExchange tokenPlaceholder tokenPlaceholder
        positionSize MAX_SLIPPAGE
  match buyRes with
  | .error e => (catchResult opp e, [buyCall])
  | .ok none =>
    ({ success := false, opportunityId := opp.id, strategy := opp.strategy
       error := some ("Failed to execute buy order on " ++ opp.buyExchange) },
     [buyCall])
  | .ok (some buyTxHash) =>
    let sellCall : AdapterCall :=
      if opp.sellExchangeType = "cex" then
        .cexSell opp.sellExchange opp.assetPair assetAmount
      else .dexSwap opp.sellExchange tokenPlaceholder tokenPlaceholder assetAmount
    let sellRes :=
      if opp.sellExchangeType = "cex" then
        env.placeMarketSellOrder opp.sellExchange opp.assetPair assetAmount
      else
        env.swapTokens opp.sellExchange tokenPlaceholder tokenPlaceholder
          assetAmount MAX_SLIPPAGE
    match sellRes with
    | .error e => (catchResult opp e, [buyCall, sellCall])
    | .ok none =>
      ({ success := false, opportunityId := opp.id, strategy := opp.strategy
         error := some ("Failed to execute sell order on " ++ opp.sellExchange)
         transactionHashes := [buyTxHash] },
       [buyCall, sellCall])
    | .ok (some sellTxHash) =>
      let buyTotal := assetAmount * opp.buyPrice
      let sellTotal := assetAmount * opp.sellPrice
      ({ success := true, opportunityId := opp.id, strategy := opp.strategy
         transactionHashes := [buyTxHash, sellTxHash]
         profit := some (sellTotal - buyTotal) },
       [buyCall, sellCall])

/-- The garbled hop separator the triangular executor splits the route on
(execution.ts line 270): the three characters U+00E2 U+2020 U+2019
("â†’", a mis-decoding of the "→" the detector writes), surrounded by
spaces. -/
def garbledArrowSep : String :=
  String.mk [' ', Char.ofNat 226, Char.ofNat 8224, Char.ofNat 8217, ' ']

/-- The hop loop of executeTriangularArbitrage (execution.ts lines
286-344): one trade per route step except the last, each carrying 98% of
the previous amount forward.  Returns either a finished failure result or
the final amount with the collected hashes. -/
def triangularHops (env : AdapterEnv) (opp : Opportunity) (exchange : String)
    (isCex : Bool) : List String → Nat → ℚ → List String → List AdapterCall →
    (ExecutionResult × List AdapterCall) ⊕ (ℚ × List String × List AdapterCall)
  | [], _, currentAmount, hashes, calls => .inr (currentAmount, hashes, calls)
  | currentPair :: rest, stepIdx, currentAmount, hashes, calls =>
    let call : AdapterCall :=
      if isCex then .cexBuy exchange currentPair currentAmount
      else .dexSwap exchange tokenPlaceholder tokenPlaceholder currentAmount
    let res :=
      if isCex then env.placeMarketBuyOrder exchange currentPair currentAmount
      else
        env.swapTokens exchange tokenPlaceholder tokenPlaceholder currentAmount
          MAX_SLIPPAGE
    match res with
    | .error e => .inl (catchResult opp e, calls ++ [call])
    | .ok none =>
      .inl
        ({ success := false, opportunityId := opp.id, strategy := opp.strategy
           error := some ("Failed to execute step " ++ toString (stepIdx + 1)
             ++ " on " ++ exchange)
           transactionHashes := hashes },
         calls ++ [call])
    | .ok (some txHash) =>
      triangularHops env opp exchange isCex rest (stepIdx + 1)
        (currentAmount * 0.98) (hashes ++ [txHash]) (calls ++ [call])

/-- executeTriangularArbitrage (execution.ts lines 261-365): split the
route on the garbled separator, require at least three steps, run the hop
loop, report final amount minus initial position size as profit. -/
def executeTriangularArbitrage (env : AdapterEnv) (opp : Opportunity)
    (positionSize : ℚ) : ExecutionResult × List AdapterCall :=
  let steps := strSplitOn opp.route garbledArrowSep
  if steps.length < 3 then
    ({ success := false, opportunityId := opp.id, strategy := opp.strategy
       error := some "Invalid triangular arbitrage route" }, [])
  else
    match triangularHops env opp opp.buyExchange (opp.buyExchangeType = "cex")
        steps.dropLast 0 positionSize [] [] with
    | .inl failed => failed
    | .inr (finalAmount, hashes, calls) =>
      ({ success := true, opportunityId := opp.id, strategy := opp.strategy
         transactionHashes := hashes
         profit := some (finalAmount - positionSize) }, calls)

/-- The sell phase shared by both branches of executeCrossDexArbitrage
(execution.ts lines 452-496). -/
def crossDexSellPhase (env : AdapterEnv) (opp : Opportunity)
    (positionSize assetAmount : ℚ) (isCrossNetwork : Bool)
    (hashes : List String) (calls : List AdapterCall) :
    ExecutionResult × List AdapterCall :=
  let sellCall : AdapterCall :=
    .dexSwap opp.sellExchange tokenPlaceholder tokenPlaceholder assetAmount
  match env.swapTokens opp.sellExchange tokenPlaceholder tokenPlaceholder
      assetAmount MAX_SLIPPAGE with
  | .error e => (catchResult opp e, calls ++ [sellCall])
  | .ok none =>
    ({ success := false, opportunityId := opp.id, strategy := opp.strategy
       error := some ("Failed to execute sell on " ++ opp.sellExchange)
       transactionHashes := hashes },
     calls ++ [sellCall])
  | .ok (some sellTxHash) =>
    let sellTotal := assetAmount * opp.sellPrice
    let estimatedGasCost := opp.estimatedGasCost.getD 0
    let bridgeFee := if isCrossNetwork then assetAmount * 0.001 else 0
    ({ success := true, opportunityId := opp.id, strategy := opp.strategy
       transactionHashes := hashes ++ [sellTxHash]
       profit := some (sellTotal - positionSize - estimatedGasCost - bridgeFee) },
     calls ++ [sellCall])

/-- executeCrossDexArbitrage (execution.ts lines 370-506): buy on the
source DEX, bridge when cross-network with a truthy bridge name, sell on
the destination DEX. -/
def executeCrossDexArbitrage (env : AdapterEnv) (opp : Opportunity)
    (positionSize : ℚ) : ExecutionResult × List AdapterCall :=
  let asset := (strSplitOn opp.assetPair "/").headD ""
  let isCrossNetwork := opp.buyNetwork ≠ opp.sellNetwork
  let buyCall : AdapterCall :=
    .dexSwap opp.buyExchange tokenPlaceholder tokenPlaceholder positionSize
  match env.swapTokens opp.buyExchange tokenPlaceholder tokenPlaceholder
      positionSize MAX_SLIPPAGE with
  | .error e => (catchResult opp e, [buyCall])
  | .ok none =>
    ({ success := false, opportunityId := opp.id, strategy := opp.strategy
       error := some ("Failed to execute buy on " ++ opp.buyExchange) },
     [buyCall])
  | .ok (some buyTxHash) =>
    let assetAmount := positionSize / opp.buyPrice
    if isCrossNetwork ∧ opp.crossChainBridge.getD "" ≠ "" then
      let bridgeName := opp.crossChainBridge.getD ""
      let params : BridgeTransferParams :=
        { sourceNetwork := opp.buyNetwork.getD ""
          destinationNetwork := opp.sellNetwork.getD ""
          tokenSymbol := asset
          amount := assetAmount
          recipientAddress := "0xYourWalletAddress" }
      let bridgeCall : AdapterCall := .bridge bridgeName params
      match env.bridgeTransfer bridgeName params with
      | .error e => (catchResult opp e, [buyCall, bridgeCall])
      | .ok bridgeResult =>
        if ¬bridgeResult.success then
          ({ success := false, opportunityId := opp.id, strategy := opp.strategy
             error := some ("Failed to bridge assets: "
               ++ bridgeResult.error.getD "undefined")
             transactionHashes := [buyTxHash] },
           [buyCall, bridgeCall])
        else
          crossDexSellPhase env opp positionSize assetAmount isCrossNetwork
            [buyTxHash, bridgeResult.transactionHash.getD ""]
            [buyCall, bridgeCall]
    else
      crossDexSellPhase env opp positionSize assetAmount isCrossNetwork
        [buyTxHash] [buyCall]

/-- executeFlashLoanArbitrage (execution.ts lines 511-602). -/
def executeFlashLoanArbitrage (env : AdapterEnv) (opp : Opportunity)
    (positionSize : ℚ) : ExecutionResult × List AdapterCall :=
  let asset := (strSplitOn opp.assetPair "/").headD ""
  let providers :=
    env.getFlashLoanProvidersForNetwork (orFalsyStr opp.buyNetwork "ethereum")
  match providers with
  | [] =>
    ({ success := false, opportunityId := opp.id, strategy := opp.strategy
       error := some ("No flash loan providers available for "
         ++ opp.buyNetwork.getD "undefined") }, [])
  | provider :: _ =>
    match env.getFlashLoanTokenAddress provider.name asset with
    | none =>
      ({ success := false, opportunityId := opp.id, strategy := opp.strategy
         error := some ("Token " ++ asset ++ " not supported by "
           ++ provider.name) }, [])
    | some tokenAddress =>
      let loanAmount := positionSize * 10
      let request : FlashLoanRequest :=
        { provider := provider.name, tokens := [tokenAddress]
          amounts := [loanAmount], data := "0x" }
      match env.executeFlashLoan request with
      | .error e => (catchResult opp e, [.flashLoan request])
      | .ok result =>
        if ¬result.success then
          ({ success := false, opportunityId := opp.id, strategy := opp.strategy
             error := some ("Flash loan execution failed: "
               ++ result.error.getD "undefined") },
           [.flashLoan request])
        else
          ({ success := true, opportunityId := opp.id, strategy := opp.strategy
             transactionHashes := [result.transactionHash.getD ""]
             profit := some (loanAmount * opp.profitPercentage / 100) },
           [.flashLoan request])

/-- executeStatisticalArbitrage (execution.ts lines 607-716). -/
def executeStatisticalArbitrage (env : AdapterEnv) (opp : Opportunity)
    (positionSize : ℚ) : ExecutionResult × List AdapterCall :=
  let isLong := strStartsWith opp.route "Long"
  if isLong then
    if opp.buyExchangeType = "cex" then
      let assetAmount := positionSize / opp.buyPrice
      let call : AdapterCall := .cexBuy opp.buyExchange opp.assetPair assetAmount
      match env.placeMarketBuyOrder opp.buyExchange opp.assetPair assetAmount with
      | .error e => (catchResult opp e, [call])
      | .ok none =>
        ({ success := false, opportunityId := opp.id, strategy := opp.strategy
           error := some ("Failed to execute buy order on " ++ opp.buyExchange) },
         [call])
      | .ok (some orderId) =>
        ({ success := true, opportunityId := opp.id, strategy := opp.strategy
           transactionHashes := [orderId]
           profit := some (positionSize * (opp.profitPercentage / 100)) },
         [call])
    else
      let call : AdapterCall :=
        .dexSwap opp.buyExchange tokenPlaceholder tokenPlaceholder positionSize
      match env.swapTokens opp.buyExchange tokenPlaceholder tokenPlaceholder
          positionSize MAX_SLIPPAGE with
      | .error e => (catchResult opp e, [call])
      | .ok none =>
        ({ success := false, opportunityId := opp.id, strategy := opp.strategy
           error := some ("Failed to execute buy on " ++ opp.buyExchange) },
         [call])
      | .ok (some txHash) =>
        ({ success := true, opportunityId := opp.id, strategy := opp.strategy
           transactionHashes := [txHash]
           profit := some (positionSize * (opp.profitPercentage / 100)) },
         [call])
  else
    ({ success := true, opportunityId := opp.id, strategy := opp.strategy
       transactionHashes := ["simulated_short_trade_tx"]
       profit := some (positionSize * (opp.profitPercentage / 100)) }, [])

/-- The strategy switch of executeArbitrage (execution.ts lines 83-106);
`requestId` is the function argument used by the default branch. -/
def dispatchExecutor (env : AdapterEnv) (requestId : Nat) (opp : Opportunity)
    (positionSize : ℚ) : ExecutionResult × List AdapterCall :=
  if opp.strategy = "simple" then executeSimpleArbitrage env opp positionSize
  else if opp.strategy = "triangular" then
    executeTriangularArbitrage env opp positionSize
  else if opp.strategy = "cross-dex" then
    executeCrossDexArbitrage env opp positionSize
  else if opp.strategy = "flash-loan" then
    executeFlashLoanArbitrage env opp positionSize
  else if opp.strategy = "statistical" then
    executeStatisticalArbitrage env opp positionSize
  else
    ({ success := false, opportunityId := requestId, strategy := opp.strategy
       error := some ("Unsupported strategy: " ++ opp.strategy) }, [])

/-- executeArbitrage (execution.ts lines 37-136).  Returns the execution
result, the store after the call (deactivation happens only after a
successful strategy execution), and the ordered venue-adapter calls.
`elapsed` is the measured wall-clock completion time.  The `.error` branch
of the deactivation models the outer catch (lines 125-135), the only spot
where an exception can still escape to it in this embedding. -/
def executeArbitrage (env : AdapterEnv) (store : Store) (opportunityId : Nat)
    (elapsed : Nat) : ExecutionResult × Store × List AdapterCall :=
  match getOpportunityById store opportunityId with
  | none =>
    ({ success := false, opportunityId := opportunityId, strategy := "unknown"
       error := some ("Opportunity with ID " ++ toString opportunityId
         ++ " not found") }, store, [])
  | some opp =>
    if opp.isActive = false then
      ({ success := false, opportunityId := opportunityId
         strategy := opp.strategy
         error := some "Opportunity is no longer active" }, store, [])
    else
      let sized := calculatePositionSize env opp
      let positionSize := sized.1
      if positionSize ≤ 0 then
        ({ success := false, opportunityId := opportunityId
           strategy := opp.strategy
           error := some "Insufficient balance or position size too small" },
         store, sized.2)
      else
        let dispatched := dispatchExecutor env opportunityId opp positionSize
        let result := { dispatched.1 with completionTime := some elapsed }
        if result.success then
          match deactivateOpportunity store opportunityId with
          | .ok upd => (result, upd.2, sized.2 ++ dispatched.2)
          | .error e =>
            ({ success := false, opportunityId := opportunityId
               strategy := opp.strategy, error := some e
               completionTime := some elapsed }, store, sized.2 ++ dispatched.2)
        else (result, store, sized.2 ++ dispatched.2)

/-! ### Process-wide risk state (src/server/services/arbitrage.ts lines
40-44 and 149-172) -/

/-- The module-local risk tracking variables of arbitrage.ts. -/
structure RiskState where
  consecutiveLosses : Nat
  dailyProfitLoss : ℚ
  dailyTradeCount : Nat
deriving DecidableEq, Repr

/-- checkCircuitBreakers (arbitrage.ts lines 150-164). -/
def checkCircuitBreakers (rs : RiskState) : Bool :=
  decide (CIRCUIT_BREAKER_THRESHOLD ≤ rs.consecutiveLosses)
    || decide (rs.dailyProfitLoss < -MAX_DAILY_LOSS)

/-- resetDailyCounters (arbitrage.ts lines 167-172). -/
def resetDailyCounters (rs : RiskState) : RiskState :=
  { rs with dailyProfitLoss := 0, dailyTradeCount := 0 }

/-- The whole process state an execution request can reach: the opportunity
store plus the risk-tracking variables. -/
structure SystemState where
  store : Store
  risk : RiskState
deriving DecidableEq, Repr

/-- One execution request against the whole process state.  The execution
module (execution.ts) imports only the storage module; the risk variables
consecutiveLosses / dailyProfitLoss / dailyTradeCount are module-local to
arbitrage.ts, are not exported, and no statement anywhere in the repository
writes them after an execution result (they are only read by
checkCircuitBreakers and zeroed by resetDailyCounters), so the risk
component passes through unchanged. -/
def systemExecuteArbitrage (env : AdapterEnv) (sys : SystemState)
    (opportunityId : Nat) (elapsed : Nat) :
    ExecutionResult × SystemState × List AdapterCall :=
  let out := executeArbitrage env sys.store opportunityId elapsed
  (out.1, { store := out.2.1, risk := sys.risk }, out.2.2)

/-! ### Concrete fixtures used by witnesses and counterexamples -/

/-- A stored simple-strategy opportunity (both venues CEX), active. -/
def sampleOpp : Opportunity :=
  { assetPair := "BTC/USDT", buyExchange := "Binance", sellExchange := "Coinbase"
    buyPrice := 100, sellPrice := 102, profitPercentage := 2, volume := 5000
    estimatedProfit := 100, risk := "low", strategy := "simple"
    route := "Binance → Coinbase", isActive := true, id := 1 }

/-- A store holding only `sampleOpp` under its id. -/
def sampleStore : Store := [(1, sampleOpp)]

/-- The same opportunity, already deactivated, under id 2. -/
def staleOpp : Opportunity :=
  { sampleOpp with isActive := false, id := 2 }

/-- A store holding only the deactivated record. -/
def staleStore : Store := [(2, staleOpp)]

/-- An adapter environment in which every call succeeds. -/
def demoEnv : AdapterEnv :=
  { placeMarketBuyOrder := fun _ _ _ => .ok (some "tx-buy")
    placeMarketSellOrder := fun _ _ _ => .ok (some "tx-sell")
    swapTokens := fun _ _ _ _ _ => .ok (some "tx-swap")
    bridgeTransfer := fun _ _ =>
      .ok { success := true, transactionHash := some "tx-bridge" }
    getFlashLoanProvidersForNetwork := fun _ => []
    getFlashLoanTokenAddress := fun _ _ => none
    executeFlashLoan := fun _ => .ok { success := true, transactionHash := some "tx-flash" }
    getBalance := fun _ _ => .ok none
    getTokenBalance := fun _ _ => .ok none }

/-- Like `demoEnv` but the CEX buy order comes back null (a failed leg). -/
def failEnv : AdapterEnv :=
  { demoEnv with placeMarketBuyOrder := fun _ _ _ => .ok none }

/-- Like `demoEnv` but the CEX buy order throws. -/
def throwEnv : AdapterEnv :=
  { demoEnv with placeMarketBuyOrder := fun _ _ _ => .error "adapter exploded" }

/-- Like `demoEnv` but the CEX balance query succeeds with balance 0. -/
def zeroBalanceEnv : AdapterEnv :=
  { demoEnv with getBalance := fun _ _ => .ok (some 0) }

/-! ### C9 -/

/-- C9: for every store state and every minProfit/strategy filter
combination, storage.getOpportunities returns only records whose active
flag is true — a deactivated opportunity never appears in a list result. -/
theorem getOpportunities_only_active (store : Store) (minProfit : ℚ)
    (strategy : String) (opp : Opportunity)
    (h : opp ∈ getOpportunities store minProfit strategy) :
    opp.isActive = true := by
  by_cases h1 : (0 : ℚ) < minProfit <;> by_cases h2 : strategy ≠ "all" <;>
    simp [getOpportunities, h1, h2, mem_sortByKey, List.mem_filter] at h <;>
    tauto

/-- Witness for C9 at a concrete one-record store. -/
theorem getOpportunities_only_active_witness : sampleOpp.isActive = true :=
  getOpportunities_only_active sampleStore 0 "all" sampleOpp
    (by simp [getOpportunities, sampleStore, sortByKey, insertSortedBy, sampleOpp])

/-! ### C3 -/

/-- C3: for a stored id whose active flag is false, storage.deactivate
succeeds as a no-op (same record, same store), while executeArbitrage on
that id returns the stale-opportunity failure immediately, with the store
untouched and no venue-adapter call issued. -/
theorem deactivate_noop_execute_stale (store : Store) (id : Nat)
    (opp : Opportunity) (hget : mapGet store id = some opp)
    (hinactive : opp.isActive = false) (env : AdapterEnv) (elapsed : Nat) :
    deactivateOpportunity store id = .ok (opp, store) ∧
    executeArbitrage env store id elapsed =
      ({ success := false, opportunityId := id, strategy := opp.strategy
         error := some "Opportunity is no longer active" }, store, []) := by
  have hupd : { opp with isActive := false } = opp := by
    obtain ⟨ins, oppId⟩ := opp
    obtain ⟨⟩ := ins
    simp_all
  constructor
  · rw [deactivateOpportunity, hget]
    simp only [hupd]
    rw [mapSet_self_of_mapGet store id opp hget]
  · rw [executeArbitrage, getOpportunityById, hget]
    simp [hinactive]

/-- Witness for C3 at the concrete deactivated record. -/
theorem deactivate_noop_execute_stale_witness :
    deactivateOpportunity staleStore 2 = .ok (staleOpp, staleStore) ∧
    executeArbitrage demoEnv staleStore 2 5 =
      ({ success := false, opportunityId := 2, strategy := "simple"
         error := some "Opportunity is no longer active" }, staleStore, []) :=
  deactivate_noop_execute_stale staleStore 2 staleOpp rfl rfl demoEnv 5

/-! ### Detector output characterizations (shared helper lemmas) -/

/-- Any opportunity emitted by the simple detector has strictly positive
profit and carries the escalated table risk. -/
theorem detectSimpleArbitrage_some (pair : String) (tickers : List Ticker)
    (randVolume : ℚ) (opp : InsertOpportunity)
    (h : detectSimpleArbitrage pair tickers randVolume = some opp) :
    0 < opp.profitPercentage ∧
    opp.risk = escalateRisk (pairRiskBase pair) opp.profitPercentage := by
  simp only [detectSimpleArbitrage] at h
  split at h
  · exact absurd h (by simp)
  · split at h
    · split at h
      · exact absurd h (by simp)
      · split at h
        · exact absurd h (by simp)
        · rename_i hpp
          simp only [Option.some.injEq] at h
          subst h
          exact ⟨by simpa using not_le.mp hpp, by simp⟩
    · exact absurd h (by simp)

/-- Any opportunity emitted by one cross-DEX pool comparison has strictly
positive profit, records the two pool prices, and its profit percentage is
the percentage spread minus the two pool fees. -/
theorem crossDexCandidate_some (ref : RefData) (pair : String)
    (buyDex sellDex : PoolPrice) (opp : InsertOpportunity)
    (h : crossDexCandidate ref pair buyDex sellDex = some opp) :
    0 < opp.profitPercentage ∧
    opp.buyPrice = buyDex.price ∧ opp.sellPrice = sellDex.price ∧
    opp.profitPercentage =
      (sellDex.price - buyDex.price) / buyDex.price * 100
        - (buyDex.fee + sellDex.fee) := by
  simp only [crossDexCandidate] at h
  split at h
  · exact absurd h (by simp)
  · split at h
    · exact absurd h (by simp)
    · rename_i hpp
      simp only [Option.some.injEq] at h
      subst h
      exact ⟨by simpa using not_le.mp hpp, by simp, by simp, by simp⟩

/-- Any opportunity emitted by one flash-loan provider/token iteration has
strictly positive profit. -/
theorem flashLoanCandidate_some (provider : FlashLoanProviderRec)
    (token : String) (shuffled : List ExchangeRec) (rand : Nat → ℚ)
    (opp : InsertOpportunity)
    (h : flashLoanCandidate provider token shuffled rand = some opp) :
    0 < opp.profitPercentage := by
  simp only [flashLoanCandidate] at h
  split at h
  · exact absurd h (by simp)
  · split at h
    · exact absurd h (by simp)
    · rename_i hpp
      simp only [Option.some.injEq] at h
      subst h
      simpa using not_le.mp hpp

/-- Any opportunity emitted by one statistical-detector iteration has
profit at least the 0.3 signal threshold, hence strictly positive. -/
theorem statisticalCandidate_some (pair : String)
    (shuffled : List ExchangeRec) (rand : Nat → ℚ) (opp : InsertOpportunity)
    (h : statisticalCandidate pair shuffled rand = some opp) :
    0 < opp.profitPercentage := by
  simp only [statisticalCandidate] at h
  split at h
  · exact absurd h (by simp)
  · split at h
    · split at h
      · exact absurd h (by simp)
      · rename_i hpp
        simp only [Option.some.injEq] at h
        subst h
        have := not_lt.mp hpp
        simp only []
        linarith [this]
    · exact absurd h (by simp)

/-! ### C2 -/

/-- C2: every opportunity any of the five detectors hands to
storage.addOpportunity has strictly positive profit percentage; no
non-positive-profit record is ever stored.  The triangular detector has no
explicit guard, so its part relies on the Math.random() range [0,1). -/
theorem detectors_store_only_positive_profit :
    (∀ pair tickers randVolume opp,
      detectSimpleArbitrage pair tickers randVolume = some opp →
      0 < opp.profitPercentage) ∧
    (∀ rand : Nat → ℚ, (∀ i, 0 ≤ rand i ∧ rand i < 1) →
      ∀ opp ∈ detectTriangularArbitrage rand, 0 < opp.profitPercentage) ∧
    (∀ ref pair pools opp, opp ∈ detectCrossDexForPair ref pair pools →
      0 < opp.profitPercentage) ∧
    (∀ providers exchanges shuffle rand opp,
      opp ∈ detectFlashLoanArbitrage providers exchanges shuffle rand →
      0 < opp.profitPercentage) ∧
    (∀ exchanges shuffle rand opp,
      opp ∈ detectStatisticalArbitrage exchanges shuffle rand →
      0 < opp.profitPercentage) := by
  refine ⟨?_, ?_, ?_, ?_, ?_⟩
  · intro pair tickers randVolume opp h
    exact (detectSimpleArbitrage_some pair tickers randVolume opp h).1
  · intro rand hr opp h
    simp only [detectTriangularArbitrage, List.mem_cons, List.not_mem_nil,
      or_false] at h
    rcases h with rfl | rfl | rfl
    · have h1 := (hr 1).1
      simp only [mkTriangularOpportunity]
      nlinarith
    · have h4 := (hr 4).1
      simp only [mkTriangularOpportunity]
      nlinarith
    · have h7 := (hr 7).1
      simp only [mkTriangularOpportunity]
      nlinarith
  · intro ref pair pools opp h
    simp only [detectCrossDexForPair] at h
    split at h
    · exact absurd h (by simp)
    · split at h
      · exact absurd h (by simp)
      · rw [List.mem_filterMap] at h
        obtain ⟨buyDex, _, hcand⟩ := h
        exact (crossDexCandidate_some _ _ _ _ _ hcand).1
  · intro providers exchanges shuffle rand opp h
    simp only [detectFlashLoanArbitrage] at h
    split at h
    · exact absurd h (by simp)
    · rw [List.mem_flatMap] at h
      obtain ⟨provider, _, h⟩ := h
      split at h
      · exact absurd h (by simp)
      · rw [List.mem_filterMap] at h
        obtain ⟨token, _, hcand⟩ := h
        exact flashLoanCandidate_some _ _ _ _ _ hcand
  · intro exchanges shuffle rand opp h
    simp only [detectStatisticalArbitrage] at h
    rw [List.mem_filterMap] at h
    obtain ⟨pair, _, h⟩ := h
    split at h
    · exact absurd h (by simp)
    · exact statisticalCandidate_some _ _ _ _ h

/-! ### Concrete detector scenarios (fixtures shared by witnesses) -/

/-- Two CEX tickers: buy ask 100 on Binance, sell bid 102 on Coinbase. -/
def tickersW : List Ticker := [⟨"Binance", 99, 100⟩, ⟨"Coinbase", 102, 103⟩]

/-- The simple-detector output on `tickersW` (profit 2%, table risk kept). -/
def simpleOppW : InsertOpportunity :=
  { assetPair := "BTC/USDT", buyExchange := "Binance", sellExchange := "Coinbase"
    buyPrice := 100, sellPrice := 102, profitPercentage := 2, volume := 5000
    estimatedProfit := 100, risk := "low", strategy := "simple"
    route := "Binance → Coinbase", isActive := true }

theorem simple_scenario_eval :
    detectSimpleArbitrage "BTC/USDT" tickersW 0 = some simpleOppW := by
  norm_num [detectSimpleArbitrage, tickersW, sortByKey, insertSortedBy,
    escalateRisk, pairRiskBase, PAIR_RISK_LEVELS, List.lookup, simpleOppW]
  decide

/-- Tickers with a 6% spread on a low-risk pair. -/
def tickersHighW : List Ticker := [⟨"Binance", 99, 100⟩, ⟨"Coinbase", 106, 110⟩]

/-- The simple-detector output on `tickersHighW`: profit 6%, but risk only
"medium" because the low-tier branch of the if/else-if fires first. -/
def highOppW : InsertOpportunity :=
  { assetPair := "BTC/USDT", buyExchange := "Binance", sellExchange := "Coinbase"
    buyPrice := 100, sellPrice := 106, profitPercentage := 6, volume := 5000
    estimatedProfit := 300, risk := "medium", strategy := "simple"
    route := "Binance → Coinbase", isActive := true }

theorem simple_high_scenario_eval :
    detectSimpleArbitrage "BTC/USDT" tickersHighW 0 = some highOppW := by
  norm_num [detectSimpleArbitrage, tickersHighW, sortByKey, insertSortedBy,
    escalateRisk, pairRiskBase, PAIR_RISK_LEVELS, List.lookup, highOppW]
  decide

/-- Reference data with no gas records and no bridges. -/
def refW : RefData :=
  { getLatestGasPrices := fun _ => none, getCrossChainBridges := fun _ _ => [] }

/-- Pool with implied price 100/10 = 10.0, fee 0.3%. -/
def poolA : LiquidityPool :=
  ⟨"Uniswap", "ethereum", "ETH/USDT", 100, 10, 1000000, 0.3⟩

/-- Pool with implied price 105/10 = 10.5, fee 0.3%. -/
def poolB : LiquidityPool :=
  ⟨"Sushiswap", "ethereum", "ETH/USDT", 105, 10, 1000000, 0.3⟩

/-- The cross-DEX detector output on the two pools: 5% spread minus 0.6%
total fees = 4.4% net profit, same network so risk stays "medium". -/
def cdOppW : InsertOpportunity :=
  { assetPair := "ETH/USDT", buyExchange := "Uniswap", sellExchange := "Sushiswap"
    buyPrice := 10, sellPrice := 10.5, profitPercentage := 4.4, volume := 10000
    estimatedProfit := 440, risk := "medium", strategy := "cross-dex"
    route := "Uniswap (ethereum) → Sushiswap (ethereum)", isActive := true
    buyExchangeType := "dex", sellExchangeType := "dex"
    buyNetwork := some "ethereum", sellNetwork := some "ethereum"
    estimatedGasCost := some 0, estimatedCompletionTime := some 1
    crossChainBridge := none }

theorem crossdex_scenario_eval :
    detectCrossDexForPair refW "ETH/USDT" [poolA, poolB] = [cdOppW] := by
  have hne : ¬("Uniswap" = "Sushiswap") := by decide
  norm_num [detectCrossDexForPair, crossDexCandidate, refW, poolA, poolB,
    sortByKey, insertSortedBy, cdOppW, MAX_POSITION_SIZE,
    List.filterMap_cons, List.filterMap_nil, hne, InsertOpportunity.mk.injEq]
  decide

/-- A flash-loan provider on ethereum with fee 0.09% supporting USDC. -/
def provW : FlashLoanProviderRec := ⟨"Aave", "ethereum", 0.09, 1000000, ["USDC"]⟩

/-- Two active DEX exchanges on ethereum. -/
def exchangesW : List ExchangeRec :=
  [⟨"Uniswap", some "ethereum", "dex", true⟩,
   ⟨"Sushiswap", some "ethereum", "dex", true⟩]

/-- The flash-loan detector output for `provW` with the zero rand oracle. -/
def flashOppW : InsertOpportunity :=
  { assetPair := "USDC/USD", buyExchange := "Uniswap", sellExchange := "Sushiswap"
    buyPrice := 1000, sellPrice := 1000, profitPercentage := 0.41
    volume := 500000, estimatedProfit := 2050, risk := "high"
    strategy := "flash-loan", route := "Aave → Uniswap → Sushiswap → Repay Aave"
    isActive := true, buyExchangeType := "dex", sellExchangeType := "dex"
    buyNetwork := some "ethereum", sellNetwork := some "ethereum"
    estimatedGasCost := some 50, estimatedCompletionTime := some 1 }

theorem flash_scenario_eval :
    detectFlashLoanArbitrage [provW] exchangesW (fun _ _ l => l)
      (fun _ _ _ => 0) = [flashOppW] := by
  norm_num [detectFlashLoanArbitrage, flashLoanCandidate, provW, exchangesW,
    flashOppW, List.filterMap_cons, List.filterMap_nil]
  decide

/-- Per-pair rand oracle for the statistical scenario: creation gate passes
(first draw 1 > 0.7), every other draw 0 (z-score −2). -/
def randStatW : String → Nat → ℚ := fun _ n => if n = 0 then 1 else 0

/-- The statistical detector output for pair BTC/USDT under `randStatW`:
z-score −2, long position, profit potential 1%. -/
def statOppW : InsertOpportunity :=
  { assetPair := "BTC/USDT", buyExchange := "Uniswap", sellExchange := "Sushiswap"
    buyPrice := 100, sellPrice := 101, profitPercentage := 1, volume := 1000
    estimatedProfit := 10, risk := "medium", strategy := "statistical"
    route := "Long BTC/USDT | Z-Score: " ++ toString (-2 : ℚ), isActive := true
    buyExchangeType := "dex", sellExchangeType := "dex" }

theorem stat_scenario_mem :
    statOppW ∈ detectStatisticalArbitrage exchangesW (fun _ l => l) randStatW := by
  simp only [detectStatisticalArbitrage]
  refine List.mem_filterMap.mpr ⟨"BTC/USDT", by simp [COMMON_PAIRS], ?_⟩
  norm_num [statisticalCandidate, exchangesW, randStatW, statOppW, abs]
  decide

/-- Witness for C2: one concrete emitted opportunity per detector, each with
strictly positive profit. -/
theorem detectors_store_only_positive_profit_witness :
    0 < simpleOppW.profitPercentage ∧
    0 < (mkTriangularOpportunity "SOL/USDT" "SOL/USDT → SOL/BTC → BTC/USDT"
          1.87 "medium" 0 0 0).profitPercentage ∧
    0 < cdOppW.profitPercentage ∧
    0 < flashOppW.profitPercentage ∧
    0 < statOppW.profitPercentage := by
  obtain ⟨h1, h2, h3, h4, h5⟩ := detectors_store_only_positive_profit
  refine ⟨h1 "BTC/USDT" tickersW 0 simpleOppW simple_scenario_eval,
    h2 (fun _ => 0) (by norm_num) _ (by simp [detectTriangularArbitrage]),
    h3 refW "ETH/USDT" [poolA, poolB] cdOppW (by rw [crossdex_scenario_eval]; simp),
    h4 [provW] exchangesW (fun _ _ l => l) (fun _ _ _ => 0) flashOppW
      (by rw [flash_scenario_eval]; simp),
    h5 exchangesW (fun _ l => l) randStatW statOppW stat_scenario_mem⟩

/-! ### C5 -/

/-- Counterexample to C5 as stated: on the low-risk pair BTC/USDT with a 6%
spread the detector emits risk "medium", not "high" — the `profit% > 5 ⟹
high` escalation does not apply to a low-tier pair because the low-tier
branch of the if/else-if chain fires first. -/
theorem simple_risk_counterexample :
    detectSimpleArbitrage "BTC/USDT" tickersHighW 0 = some highOppW ∧
    pairRiskBase "BTC/USDT" = "low" ∧
    highOppW.profitPercentage = 6 ∧ 5 < highOppW.profitPercentage ∧
    highOppW.risk = "medium" ∧ highOppW.risk ≠ "high" :=
  ⟨simple_high_scenario_eval, by decide, by norm_num [highOppW],
   by norm_num [highOppW], rfl, by decide⟩

/-- C5 amended: every simple-detector candidate carries the static-table
risk escalated as the code actually does it — a low table tier with
profit% above 3 becomes medium (even above 5); a non-low table tier with
profit% above 5 becomes high; otherwise the table tier is kept. -/
theorem simple_risk_escalation_amended (pair : String) (tickers : List Ticker)
    (randVolume : ℚ) (opp : InsertOpportunity)
    (h : detectSimpleArbitrage pair tickers randVolume = some opp) :
    (pairRiskBase pair = "low" → 3 < opp.profitPercentage → opp.risk = "medium") ∧
    (pairRiskBase pair ≠ "low" → 5 < opp.profitPercentage → opp.risk = "high") ∧
    (pairRiskBase pair = "low" → opp.profitPercentage ≤ 3 → opp.risk = "low") ∧
    (pairRiskBase pair ≠ "low" → opp.profitPercentage ≤ 5 →
      opp.risk = pairRiskBase pair) := by
  have hrisk := (detectSimpleArbitrage_some pair tickers randVolume opp h).2
  refine ⟨?_, ?_, ?_, ?_⟩ <;> intro hbase hpp
  · rw [hrisk]
    unfold escalateRisk
    rw [if_pos ⟨hpp, hbase⟩]
  · rw [hrisk]
    unfold escalateRisk
    rw [if_neg (by rintro ⟨_, hb⟩; exact hbase hb), if_pos hpp]
  · rw [hrisk]
    unfold escalateRisk
    rw [if_neg (by rintro ⟨h3, _⟩; linarith), if_neg (by linarith)]
    exact hbase
  · rw [hrisk]
    unfold escalateRisk
    rw [if_neg (by rintro ⟨_, hb⟩; exact hbase hb), if_neg (by linarith)]

/-- Witness for the amended C5 at the 2%-profit scenario: the table tier is
kept. -/
theorem simple_risk_escalation_amended_witness : simpleOppW.risk = "low" :=
  (simple_risk_escalation_amended "BTC/USDT" tickersW 0 simpleOppW
    simple_scenario_eval).2.2.1 (by decide) (by norm_num [simpleOppW])

/-! ### C8 -/

/-- Helper: the last element of a list is a member. -/
theorem mem_of_getLast?_eq (l : List α) (a : α) (h : l.getLast? = some a) :
    a ∈ l := by
  obtain ⟨hne, rfl⟩ :=
    List.mem_getLast?_eq_getLast (show a ∈ l.getLast? by simp [Option.mem_def, h])
  exact List.getLast_mem hne

/-- The PoolPrice summaries a pool group is mapped to. -/
theorem detectCrossDexForPair_mem_shape (ref : RefData) (pair : String)
    (pools : List LiquidityPool) (opp : InsertOpportunity)
    (h : opp ∈ detectCrossDexForPair ref pair pools) :
    ∃ buyDex sellDex : PoolPrice,
      (∃ bp ∈ pools, buyDex =
        { exchange := bp.exchange, network := bp.network
          price := bp.token0Amount / bp.token1Amount
          liquidityUSD := bp.liquidityUSD, fee := bp.fee }) ∧
      (∃ sp ∈ pools, sellDex =
        { exchange := sp.exchange, network := sp.network
          price := sp.token0Amount / sp.token1Amount
          liquidityUSD := sp.liquidityUSD, fee := sp.fee }) ∧
      crossDexCandidate ref pair buyDex sellDex = some opp := by
  simp only [detectCrossDexForPair] at h
  split at h
  · exact absurd h (by simp)
  · split at h
    · exact absurd h (by simp)
    · rename_i sellDex hlast
      rw [List.mem_filterMap] at h
      obtain ⟨buyDex, hbuy, hcand⟩ := h
      have hbuy' := List.dropLast_subset _ hbuy
      rw [mem_sortByKey, List.mem_map] at hbuy'
      obtain ⟨bp, hbp, rfl⟩ := hbuy'
      have hsell' := mem_of_getLast?_eq _ _ hlast
      rw [mem_sortByKey, List.mem_map] at hsell'
      obtain ⟨sp, hsp, rfl⟩ := hsell'
      exact ⟨_, _, ⟨bp, hbp, rfl⟩, ⟨sp, hsp, rfl⟩, hcand⟩

/-- C8: every stored cross-DEX opportunity prices at the buy and sell pool
implied prices and its net profit percentage is the percentage price
spread minus the sum of the two pools' fees; in the 10.0 / 10.5 pools with
0.3% fees scenario the stored net profit is 5% − 0.6% = 4.4. -/
theorem crossdex_profit_formula :
    (∀ ref pair buyDex sellDex opp,
      crossDexCandidate ref pair buyDex sellDex = some opp →
      opp.buyPrice = buyDex.price ∧ opp.sellPrice = sellDex.price ∧
      opp.profitPercentage =
        (sellDex.price - buyDex.price) / buyDex.price * 100
          - (buyDex.fee + sellDex.fee)) ∧
    (∀ ref pair pools opp, opp ∈ detectCrossDexForPair ref pair pools →
      ∃ bp ∈ pools, ∃ sp ∈ pools,
        opp.buyPrice = bp.token0Amount / bp.token1Amount ∧
        opp.sellPrice = sp.token0Amount / sp.token1Amount ∧
        opp.profitPercentage =
          (opp.sellPrice - opp.buyPrice) / opp.buyPrice * 100
            - (bp.fee + sp.fee)) ∧
    (detectCrossDexForPair refW "ETH/USDT" [poolA, poolB] = [cdOppW] ∧
      cdOppW.profitPercentage = 5 - 0.6 ∧ (5 : ℚ) - 0.6 = 4.4) := by
  have hcand : ∀ ref pair buyDex sellDex opp,
      crossDexCandidate ref pair buyDex sellDex = some opp →
      opp.buyPrice = buyDex.price ∧ opp.sellPrice = sellDex.price ∧
      opp.profitPercentage =
        (sellDex.price - buyDex.price) / buyDex.price * 100
          - (buyDex.fee + sellDex.fee) := by
    intro ref pair buyDex sellDex opp h
    obtain ⟨_, h1, h2, h3⟩ := crossDexCandidate_some ref pair buyDex sellDex opp h
    exact ⟨h1, h2, h3⟩
  refine ⟨hcand, ?_, ?_, by norm_num [cdOppW], by norm_num⟩
  · intro ref pair pools opp h
    obtain ⟨buyDex, sellDex, ⟨bp, hbp, rfl⟩, ⟨sp, hsp, rfl⟩, hc⟩ :=
      detectCrossDexForPair_mem_shape ref pair pools opp h
    obtain ⟨h1, h2, h3⟩ := hcand _ _ _ _ _ hc
    refine ⟨bp, hbp, sp, hsp, h1, h2, ?_⟩
    rw [h1, h2]
    exact h3
  · exact crossdex_scenario_eval

/-- The PoolPrice summaries of the two scenario pools. -/
def poolPriceA : PoolPrice := ⟨"Uniswap", "ethereum", 10, 1000000, 0.3⟩

/-- The PoolPrice summary of the 10.5 pool. -/
def poolPriceB : PoolPrice := ⟨"Sushiswap", "ethereum", 10.5, 1000000, 0.3⟩

/-- The single candidate comparison of the C8 scenario. -/
theorem crossdex_candidate_scenario_eval :
    crossDexCandidate refW "ETH/USDT" poolPriceA poolPriceB = some cdOppW := by
  have hne : ¬("Uniswap" = "Sushiswap") := by decide
  norm_num [crossDexCandidate, refW, poolPriceA, poolPriceB, cdOppW,
    MAX_POSITION_SIZE, hne, InsertOpportunity.mk.injEq]
  decide

/-- Witness for C8 at the concrete scenario pools. -/
theorem crossdex_profit_formula_witness :
    (cdOppW.buyPrice = poolPriceA.price ∧ cdOppW.sellPrice = poolPriceB.price ∧
      cdOppW.profitPercentage =
        (poolPriceB.price - poolPriceA.price) / poolPriceA.price * 100
          - (poolPriceA.fee + poolPriceB.fee)) ∧
    ∃ bp ∈ [poolA, poolB], ∃ sp ∈ [poolA, poolB],
      cdOppW.buyPrice = bp.token0Amount / bp.token1Amount ∧
      cdOppW.sellPrice = sp.token0Amount / sp.token1Amount ∧
      cdOppW.profitPercentage =
        (cdOppW.sellPrice - cdOppW.buyPrice) / cdOppW.buyPrice * 100
          - (bp.fee + sp.fee) := by
  constructor
  · exact (crossdex_profit_formula).1 refW "ETH/USDT" poolPriceA poolPriceB
      cdOppW crossdex_candidate_scenario_eval
  · exact (crossdex_profit_formula).2.1 refW "ETH/USDT" [poolA, poolB] cdOppW
      (by rw [crossdex_scenario_eval]; simp)

/-! ### C4 -/

/-- Counterexample to C4 as stated: a successful CEX balance query that
returns 0 is collapsed by the JS `balance || MAX_POSITION_SIZE` fallback,
so the computed position size (5000) exceeds the queried available
balance (0). -/
theorem positionsize_zero_balance_counterexample :
    zeroBalanceEnv.getBalance sampleOpp.buyExchange "USDT" = .ok (some 0) ∧
    (calculatePositionSize zeroBalanceEnv sampleOpp).1 = 5000 ∧
    0 < (calculatePositionSize zeroBalanceEnv sampleOpp).1 := by
  have h : (calculatePositionSize zeroBalanceEnv sampleOpp).1 = 5000 := by
    norm_num [calculatePositionSize, getAvailableBalance, zeroBalanceEnv,
      sampleOpp, orFalsyNum, riskFactorFor, MAX_POSITION_SIZE,
      MIN_POSITION_SIZE, min_def]
  exact ⟨rfl, h, by rw [h]; norm_num⟩

/-- The risk factor table always scales by a factor in (0, 1]. -/
theorem riskFactorFor_bounds (strategy : String) :
    0 < riskFactorFor strategy ∧ riskFactorFor strategy ≤ 1 := by
  simp only [riskFactorFor]
  repeat' split
  all_goals norm_num

/-- Core bound of the sizing arithmetic: after the balance cap and the risk
scaling the result stays below the hard cap, and below any positive
available balance. -/
theorem sizing_mul_le (ps2 A rf : ℚ) (h100 : MIN_POSITION_SIZE ≤ ps2)
    (hmax : ps2 ≤ MAX_POSITION_SIZE) (hrf0 : 0 < rf) (hrf1 : rf ≤ 1) :
    (if A < ps2 then A else ps2) * rf ≤ MAX_POSITION_SIZE ∧
    (0 < A → (if A < ps2 then A else ps2) * rf ≤ A) := by
  rw [MIN_POSITION_SIZE] at h100
  rw [MAX_POSITION_SIZE] at hmax ⊢
  constructor
  · split
    · rename_i hA
      rcases le_or_lt 0 A with h0 | h0
      · nlinarith
      · nlinarith
    · nlinarith
  · intro hA0
    split
    · nlinarith
    · rename_i hA
      nlinarith [not_lt.mp hA]

/-- C4 amended: the computed position size is always at most the global
maximum; and it is at most the queried available balance whenever the
balance query succeeds with a strictly positive balance (a zero CEX
balance is falsy in JS and falls back to the global maximum, which the
counterexample exhibits). -/
theorem positionSize_bounds_amended (env : AdapterEnv) (opp : Opportunity) :
    (calculatePositionSize env opp).1 ≤ MAX_POSITION_SIZE ∧
    (∀ b : ℚ, 0 < b → opp.buyExchangeType = "cex" →
      env.getBalance opp.buyExchange ((strSplitOn opp.assetPair "/").getD 1 "")
        = .ok (some b) →
      (calculatePositionSize env opp).1 ≤ b) ∧
    (∀ b : ℚ, 0 < b → opp.buyExchangeType ≠ "cex" →
      env.getTokenBalance (orFalsyStr opp.buyNetwork "ethereum") tokenPlaceholder
        = .ok (some b) →
      (calculatePositionSize env opp).1 ≤ b) := by
  have h100 : MIN_POSITION_SIZE ≤
      (if min opp.volume MAX_POSITION_SIZE < MIN_POSITION_SIZE
       then MIN_POSITION_SIZE else min opp.volume MAX_POSITION_SIZE) := by
    split
    · exact le_refl _
    · rename_i hlt
      exact le_of_not_lt hlt
  have hmax : (if min opp.volume MAX_POSITION_SIZE < MIN_POSITION_SIZE
       then MIN_POSITION_SIZE else min opp.volume MAX_POSITION_SIZE)
      ≤ MAX_POSITION_SIZE := by
    split
    · rw [MIN_POSITION_SIZE, MAX_POSITION_SIZE]
      norm_num
    · exact min_le_right _ _
  obtain ⟨hrf0, hrf1⟩ := riskFactorFor_bounds opp.strategy
  refine ⟨?_, ?_, ?_⟩
  · simp only [calculatePositionSize]
    exact (sizing_mul_le _ (getAvailableBalance env opp).1 _ h100 hmax
      hrf0 hrf1).1
  · intro b hb0 hcex hbal
    have hA : (getAvailableBalance env opp).1 = b := by
      simp only [getAvailableBalance]
      rw [if_pos hcex, hbal]
      simp [orFalsyNum, hb0.ne']
    simp only [calculatePositionSize, hA]
    exact (sizing_mul_le _ b _ h100 hmax hrf0 hrf1).2 hb0
  · intro b hb0 hncex hbal
    have hA : (getAvailableBalance env opp).1 = b := by
      simp only [getAvailableBalance]
      rw [if_neg hncex, hbal]
    simp only [calculatePositionSize, hA]
    exact (sizing_mul_le _ b _ h100 hmax hrf0 hrf1).2 hb0

/-- An environment whose CEX balance query succeeds with 700. -/
def posBalanceEnv : AdapterEnv :=
  { demoEnv with getBalance := fun _ _ => .ok (some 700) }

/-- A DEX-side copy of the sample opportunity. -/
def dexOpp : Opportunity :=
  { sampleOpp with buyExchangeType := "dex", id := 3 }

/-- An environment whose DEX token-balance query succeeds with 600. -/
def dexBalanceEnv : AdapterEnv :=
  { demoEnv with getTokenBalance := fun _ _ => .ok (some 600) }

/-- Witness for the amended C4: the hard cap holds, and the positive-balance
caps hold on the CEX and DEX paths at concrete balances 700 and 600. -/
theorem positionSize_bounds_amended_witness :
    (calculatePositionSize demoEnv sampleOpp).1 ≤ MAX_POSITION_SIZE ∧
    (calculatePositionSize posBalanceEnv sampleOpp).1 ≤ 700 ∧
    (calculatePositionSize dexBalanceEnv dexOpp).1 ≤ 600 :=
  ⟨(positionSize_bounds_amended demoEnv sampleOpp).1,
   (positionSize_bounds_amended posBalanceEnv sampleOpp).2.1 700 (by norm_num)
     rfl rfl,
   (positionSize_bounds_amended dexBalanceEnv dexOpp).2.2 600 (by norm_num)
     (by decide) rfl⟩

/-! ### Failure results always carry an error descriptor (helper lemmas) -/

theorem executeSimpleArbitrage_fail_error (env : AdapterEnv) (opp : Opportunity)
    (ps : ℚ) (h : (executeSimpleArbitrage env opp ps).1.success = false) :
    (executeSimpleArbitrage env opp ps).1.error ≠ none := by
  simp only [executeSimpleArbitrage] at h ⊢
  repeat' split at h <;> repeat' split
  all_goals simp_all [catchResult]

theorem triangularHops_inl_error (env : AdapterEnv) (opp : Opportunity)
    (exchange : String) (isCex : Bool) :
    ∀ (pairs : List String) (stepIdx : Nat) (amt : ℚ) (hashes : List String)
      (calls : List AdapterCall) (res : ExecutionResult)
      (calls2 : List AdapterCall),
    triangularHops env opp exchange isCex pairs stepIdx amt hashes calls
      = .inl (res, calls2) →
    res.success = false ∧ res.error ≠ none := by
  intro pairs
  induction pairs with
  | nil =>
    intro stepIdx amt hashes calls res calls2 h
    simp [triangularHops] at h
  | cons currentPair rest ih =>
    intro stepIdx amt hashes calls res calls2 h
    simp only [triangularHops] at h
    split at h
    · simp only [Sum.inl.injEq, Prod.mk.injEq] at h
      obtain ⟨rfl, -⟩ := h
      simp [catchResult]
    · simp only [Sum.inl.injEq, Prod.mk.injEq] at h
      obtain ⟨rfl, -⟩ := h
      simp
    · exact ih _ _ _ _ _ _ h

theorem executeTriangularArbitrage_fail_error (env : AdapterEnv)
    (opp : Opportunity) (ps : ℚ)
    (h : (executeTriangularArbitrage env opp ps).1.success = false) :
    (executeTriangularArbitrage env opp ps).1.error ≠ none := by
  by_cases hlen : (strSplitOn opp.route garbledArrowSep).length < 3
  · simp [executeTriangularArbitrage, hlen]
  · cases hloop : triangularHops env opp opp.buyExchange
        (opp.buyExchangeType = "cex")
        (strSplitOn opp.route garbledArrowSep).dropLast 0 ps [] [] with
    | inl failed =>
      obtain ⟨res, calls2⟩ := failed
      have herr := triangularHops_inl_error env opp _ _ _ _ _ _ _ _ _ hloop
      simp [executeTriangularArbitrage, hlen, hloop, herr.2]
    | inr fin =>
      obtain ⟨finalAmount, hashes, calls⟩ := fin
      rw [executeTriangularArbitrage] at h
      simp only [hlen, if_false, ite_false] at h
      rw [hloop] at h
      simp at h

theorem crossDexSellPhase_fail_error (env : AdapterEnv) (opp : Opportunity)
    (ps aa : ℚ) (icn : Bool) (hashes : List String) (calls : List AdapterCall)
    (h : (crossDexSellPhase env opp ps aa icn hashes calls).1.success = false) :
    (crossDexSellPhase env opp ps aa icn hashes calls).1.error ≠ none := by
  simp only [crossDexSellPhase] at h ⊢
  repeat' split at h <;> repeat' split
  all_goals simp_all [catchResult]

theorem executeCrossDexArbitrage_fail_error (env : AdapterEnv)
    (opp : Opportunity) (ps : ℚ)
    (h : (executeCrossDexArbitrage env opp ps).1.success = false) :
    (executeCrossDexArbitrage env opp ps).1.error ≠ none := by
  simp only [executeCrossDexArbitrage] at h ⊢
  split at h <;> repeat' split
  all_goals try simp_all [catchResult]
  all_goals (apply crossDexSellPhase_fail_error; assumption)

theorem executeFlashLoanArbitrage_fail_error (env : AdapterEnv)
    (opp : Opportunity) (ps : ℚ)
    (h : (executeFlashLoanArbitrage env opp ps).1.success = false) :
    (executeFlashLoanArbitrage env opp ps).1.error ≠ none := by
  simp only [executeFlashLoanArbitrage] at h ⊢
  repeat' split at h <;> repeat' split
  all_goals simp_all [catchResult]

theorem executeStatisticalArbitrage_fail_error (env : AdapterEnv)
    (opp : Opportunity) (ps : ℚ)
    (h : (executeStatisticalArbitrage env opp ps).1.success = false) :
    (executeStatisticalArbitrage env opp ps).1.error ≠ none := by
  simp only [executeStatisticalArbitrage] at h ⊢
  repeat' split at h <;> repeat' split
  all_goals simp_all [catchResult]

theorem dispatchExecutor_fail_error (env : AdapterEnv) (requestId : Nat)
    (opp : Opportunity) (ps : ℚ)
    (h : (dispatchExecutor env requestId opp ps).1.success = false) :
    (dispatchExecutor env requestId opp ps).1.error ≠ none := by
  simp only [dispatchExecutor] at h ⊢
  by_cases h1 : opp.strategy = "simple"
  · rw [if_pos h1] at h ⊢
    exact executeSimpleArbitrage_fail_error env opp ps h
  · rw [if_neg h1] at h ⊢
    by_cases h2 : opp.strategy = "triangular"
    · rw [if_pos h2] at h ⊢
      exact executeTriangularArbitrage_fail_error env opp ps h
    · rw [if_neg h2] at h ⊢
      by_cases h3 : opp.strategy = "cross-dex"
      · rw [if_pos h3] at h ⊢
        exact executeCrossDexArbitrage_fail_error env opp ps h
      · rw [if_neg h3] at h ⊢
        by_cases h4 : opp.strategy = "flash-loan"
        · rw [if_pos h4] at h ⊢
          exact executeFlashLoanArbitrage_fail_error env opp ps h
        · rw [if_neg h4] at h ⊢
          by_cases h5 : opp.strategy = "statistical"
          · rw [if_pos h5] at h ⊢
            exact executeStatisticalArbitrage_fail_error env opp ps h
          · rw [if_neg h5] at h ⊢
            simp

/-- deactivation succeeds whenever the id is present. -/
theorem deactivateOpportunity_of_mapGet (store : Store) (id : Nat)
    (opp : Opportunity) (h : mapGet store id = some opp) :
    deactivateOpportunity store id =
      .ok ({ opp with isActive := false },
        mapSet store id { opp with isActive := false }) := by
  rw [deactivateOpportunity, h]

/-! ### C7 -/

/-- C7: when an execution fails (missing id, stale id, sizing rejection, or
any failed leg) the store — in particular every active flag — is left
unchanged; the active flag is cleared exactly after a successful
execution. -/
theorem execution_failure_preserves_active_flag (env : AdapterEnv)
    (store : Store) (id elapsed : Nat) :
    ((executeArbitrage env store id elapsed).1.success = false →
      (executeArbitrage env store id elapsed).2.1 = store) ∧
    (∀ opp, mapGet store id = some opp →
      (executeArbitrage env store id elapsed).1.success = true →
      mapGet (executeArbitrage env store id elapsed).2.1 id =
        some { opp with isActive := false }) := by
  cases hmg : mapGet store id with
  | none =>
    constructor
    · intro _
      simp [executeArbitrage, getOpportunityById, hmg]
    · intro opp h
      exact absurd h (by simp)
  | some opp0 =>
    by_cases hact : opp0.isActive = true
    case neg =>
      have hact' : opp0.isActive = false := by
        cases hb : opp0.isActive
        · rfl
        · exact absurd hb hact
      constructor
      · intro _
        simp [executeArbitrage, getOpportunityById, hmg, hact']
      · intro opp h htrue
        rw [executeArbitrage, getOpportunityById, hmg] at htrue
        simp [hact'] at htrue
    case pos =>
      by_cases hps : (calculatePositionSize env opp0).1 ≤ 0
      · constructor
        · intro _
          simp [executeArbitrage, getOpportunityById, hmg, hact, hps]
        · intro opp h htrue
          rw [executeArbitrage, getOpportunityById, hmg] at htrue
          simp [hact, hps] at htrue
      · by_cases hsucc :
          (dispatchExecutor env id opp0 (calculatePositionSize env opp0).1).1.success
            = true
        · have hde := deactivateOpportunity_of_mapGet store id opp0 hmg
          constructor
          · intro hfalse
            rw [executeArbitrage, getOpportunityById, hmg] at hfalse
            simp [hact, hps, hsucc, hde] at hfalse
          · intro opp h htrue
            obtain rfl : opp0 = opp := Option.some.inj h
            rw [executeArbitrage, getOpportunityById, hmg]
            simp [hact, hps, hsucc, hde, mapGet_mapSet_self]
        · constructor
          · intro _
            rw [executeArbitrage, getOpportunityById, hmg]
            simp [hact, hps, hsucc]
          · intro opp h htrue
            rw [executeArbitrage, getOpportunityById, hmg] at htrue
            simp [hact, hps, hsucc] at htrue

/-- Concrete evaluation: with the buy order returning null, the sample
execution fails. -/
theorem exec_fail_success_eval :
    (executeArbitrage failEnv sampleStore 1 5).1.success = false := by
  norm_num [executeArbitrage, getOpportunityById, sampleStore, mapGet,
    sampleOpp, calculatePositionSize, getAvailableBalance, orFalsyNum,
    riskFactorFor, MAX_POSITION_SIZE, MIN_POSITION_SIZE, min_def,
    dispatchExecutor, executeSimpleArbitrage, failEnv, demoEnv, catchResult]

/-- Concrete evaluation: with all adapters succeeding, the sample execution
succeeds. -/
theorem exec_demo_success_eval :
    (executeArbitrage demoEnv sampleStore 1 5).1.success = true := by
  norm_num [executeArbitrage, getOpportunityById, sampleStore, mapGet,
    sampleOpp, calculatePositionSize, getAvailableBalance, orFalsyNum,
    riskFactorFor, MAX_POSITION_SIZE, MIN_POSITION_SIZE, min_def,
    dispatchExecutor, executeSimpleArbitrage, demoEnv, catchResult,
    deactivateOpportunity]

/-- Witness for C7: a failed execution leaves the concrete store unchanged;
a successful one clears the active flag. -/
theorem execution_failure_preserves_active_flag_witness :
    (executeArbitrage failEnv sampleStore 1 5).2.1 = sampleStore ∧
    mapGet (executeArbitrage demoEnv sampleStore 1 5).2.1 1 =
      some { sampleOpp with isActive := false } :=
  ⟨(execution_failure_preserves_active_flag failEnv sampleStore 1 5).1
      exec_fail_success_eval,
   (execution_failure_preserves_active_flag demoEnv sampleStore 1 5).2
      sampleOpp rfl exec_demo_success_eval⟩

/-! ### C10 -/

/-- C10: executeArbitrage always returns an ExecutionResult: an unknown id
yields success=false with strategy "unknown" and an error descriptor;
every failure carries an error descriptor; and an adapter exception thrown
during (simple-strategy) execution is caught and surfaced as success=false
with the exception message and the elapsed completion time. -/
theorem executeArbitrage_error_handling (env : AdapterEnv) (store : Store)
    (id elapsed : Nat) :
    (mapGet store id = none →
      executeArbitrage env store id elapsed =
        ({ success := false, opportunityId := id, strategy := "unknown"
           error := some ("Opportunity with ID " ++ toString id
             ++ " not found") }, store, [])) ∧
    ((executeArbitrage env store id elapsed).1.success = false →
      (executeArbitrage env store id elapsed).1.error ≠ none) ∧
    (∀ opp m, mapGet store id = some opp → opp.isActive = true →
      opp.strategy = "simple" → opp.buyExchangeType = "cex" →
      0 < (calculatePositionSize env opp).1 →
      env.placeMarketBuyOrder opp.buyExchange opp.assetPair
        ((calculatePositionSize env opp).1 / opp.buyPrice) = .error m →
      (executeArbitrage env store id elapsed).1 =
        { success := false, opportunityId := opp.id, strategy := opp.strategy
          error := some m, completionTime := some elapsed }) := by
  refine ⟨?_, ?_, ?_⟩
  · intro hmg
    simp [executeArbitrage, getOpportunityById, hmg]
  · intro hfail
    cases hmg : mapGet store id with
    | none =>
      rw [executeArbitrage, getOpportunityById, hmg]
      simp
    | some opp0 =>
      rw [executeArbitrage, getOpportunityById, hmg] at hfail ⊢
      by_cases hact : opp0.isActive = true
      · by_cases hps : (calculatePositionSize env opp0).1 ≤ 0
        · simp [hact, hps]
        · by_cases hsucc :
            (dispatchExecutor env id opp0
              (calculatePositionSize env opp0).1).1.success = true
          · have hde := deactivateOpportunity_of_mapGet store id opp0 hmg
            simp [hact, hps, hsucc, hde] at hfail
          · simp only [hact, Bool.true_eq_false, if_false, ite_false, hps,
              hsucc] at hfail ⊢
            simp [hact, hps, hsucc]
            exact dispatchExecutor_fail_error env id opp0 _
              (by simpa using hsucc)
      · have hact' : opp0.isActive = false := by
          cases hb : opp0.isActive
          · rfl
          · exact absurd hb hact
        simp [hact']
  · intro opp m hmg hact hstrat hcex hps hbuy
    have hdisp : dispatchExecutor env id opp (calculatePositionSize env opp).1 =
        (catchResult opp m,
         [AdapterCall.cexBuy opp.buyExchange opp.assetPair
           ((calculatePositionSize env opp).1 / opp.buyPrice)]) := by
      rw [dispatchExecutor, if_pos hstrat, executeSimpleArbitrage]
      simp only [hcex, eq_self_iff_true, if_true]
      rw [hbuy]
    have hps' := not_le.mpr hps
    have hsucc' : (dispatchExecutor env id opp
        (calculatePositionSize env opp).1).1.success = false := by
      rw [hdisp]
      simp [catchResult]
    rw [executeArbitrage, getOpportunityById, hmg]
    simp [hact, hps', hsucc', hdisp, catchResult]

/-- Concrete evaluation: the position size for the sample opportunity under
the throwing environment (balance query returns null, so the volume cap
applies). -/
theorem calc_throwEnv_positionSize_eval :
    (calculatePositionSize throwEnv sampleOpp).1 = 5000 := by
  norm_num [calculatePositionSize, getAvailableBalance, throwEnv, demoEnv,
    sampleOpp, orFalsyNum, riskFactorFor, MAX_POSITION_SIZE,
    MIN_POSITION_SIZE, min_def]

/-- Witness for C10: unknown id 99, a failed leg, and a thrown adapter
exception, all on the concrete store. -/
theorem executeArbitrage_error_handling_witness :
    (executeArbitrage demoEnv sampleStore 99 5 =
      ({ success := false, opportunityId := 99, strategy := "unknown"
         error := some ("Opportunity with ID " ++ toString (99 : Nat)
           ++ " not found") }, sampleStore, [])) ∧
    ((executeArbitrage failEnv sampleStore 1 5).1.error ≠ none) ∧
    ((executeArbitrage throwEnv sampleStore 1 5).1 =
      { success := false, opportunityId := 1, strategy := "simple"
        error := some "adapter exploded", completionTime := some 5 }) :=
  ⟨(executeArbitrage_error_handling demoEnv sampleStore 99 5).1 rfl,
   (executeArbitrage_error_handling failEnv sampleStore 1 5).2.1
     exec_fail_success_eval,
   (executeArbitrage_error_handling throwEnv sampleStore 1 5).2.2 sampleOpp
     "adapter exploded" rfl rfl rfl rfl
     (by rw [calc_throwEnv_positionSize_eval]; norm_num) rfl⟩

/-! ### C6 -/

/-- C6 (code bug): every route string the triangular detector emits uses
the separator " → " (U+2192), while the triangular executor splits the
route on the garbled separator " â†’ " (U+00E2 U+2020 U+2019); the split
never matches, the executor sees a single segment (< 3) and fails with
"Invalid triangular arbitrage route" without issuing a single
venue-adapter call — it never runs the per-hop legs the specification
describes. -/
theorem triangular_detector_routes_unexecutable (rand : Nat → ℚ)
    (opp : InsertOpportunity) (h : opp ∈ detectTriangularArbitrage rand)
    (env : AdapterEnv) (id : Nat) (ps : ℚ) :
    executeTriangularArbitrage env ⟨opp, id⟩ ps =
      ({ success := false, opportunityId := id, strategy := opp.strategy
         error := some "Invalid triangular arbitrage route" }, []) := by
  have hroute : (strSplitOn opp.route garbledArrowSep).length < 3 := by
    simp only [detectTriangularArbitrage, List.mem_cons, List.not_mem_nil,
      or_false] at h
    rcases h with rfl | rfl | rfl <;>
      simp only [mkTriangularOpportunity] <;> decide
  rw [executeTriangularArbitrage, if_pos hroute]

/-- Witness for C6 at the first detector triangle. -/
theorem triangular_detector_routes_unexecutable_witness :
    executeTriangularArbitrage demoEnv
      ⟨mkTriangularOpportunity "SOL/USDT" "SOL/USDT → SOL/BTC → BTC/USDT"
         1.87 "medium" 0 0 0, 7⟩ 1000 =
      ({ success := false, opportunityId := 7, strategy := "triangular"
         error := some "Invalid triangular arbitrage route" }, []) :=
  triangular_detector_routes_unexecutable (fun _ => 0) _
    (by simp [detectTriangularArbitrage]) demoEnv 7 1000

/-! ### C1 -/

/-- The initial risk state: no losses, flat daily P/L. -/
def riskW : RiskState := ⟨0, 0, 0⟩

/-- The sample system state: the one-record store plus the fresh risk
state. -/
def sysW : SystemState := ⟨sampleStore, riskW⟩

/-- Concrete evaluation: the successful sample execution reports realized
profit 100. -/
theorem exec_demo_profit_eval :
    (executeArbitrage demoEnv sampleStore 1 5).1.profit = some 100 := by
  norm_num [executeArbitrage, getOpportunityById, sampleStore, mapGet,
    sampleOpp, calculatePositionSize, getAvailableBalance, orFalsyNum,
    riskFactorFor, MAX_POSITION_SIZE, MIN_POSITION_SIZE, min_def,
    dispatchExecutor, executeSimpleArbitrage, demoEnv, catchResult,
    deactivateOpportunity]

/-- C1 (code bug): no execution result ever updates the process-wide risk
state — the consecutive-loss counter and daily P/L accumulator of
arbitrage.ts are module-local, unexported, and written by no code after an
execution.  In particular, after a concrete failed execution the counter
is unchanged (not incremented), and after a concrete successful execution
with realized profit 100 the daily P/L is unchanged (not increased). -/
theorem risk_state_never_updated_by_execution :
    (∀ env sys id elapsed,
      (systemExecuteArbitrage env sys id elapsed).2.1.risk = sys.risk) ∧
    ((systemExecuteArbitrage failEnv sysW 1 5).1.success = false ∧
     (systemExecuteArbitrage failEnv sysW 1 5).2.1.risk.consecutiveLosses = 0 ∧
     (systemExecuteArbitrage failEnv sysW 1 5).2.1.risk.consecutiveLosses
       ≠ 0 + 1) ∧
    ((systemExecuteArbitrage demoEnv sysW 1 5).1.success = true ∧
     (systemExecuteArbitrage demoEnv sysW 1 5).1.profit = some 100 ∧
     (systemExecuteArbitrage demoEnv sysW 1 5).2.1.risk.dailyProfitLoss = 0 ∧
     (0 : ℚ) ≠ 0 + 100) := by
  refine ⟨fun env sys id elapsed => rfl,
    ⟨?_, rfl, by norm_num [systemExecuteArbitrage, sysW, riskW]⟩,
    ⟨?_, ?_, rfl, by norm_num⟩⟩
  · exact exec_fail_success_eval
  · exact exec_demo_success_eval
  · exact exec_demo_profit_eval

end ArbBot

